import Mathlib

/-!
# XMouse daemon: polling engine, control loop, start-up and the CIA timer example

A shallow embedding of `src/xmouse.c` and of the timer functions of
`CIA_Ressource_exmple.c`.  The daemon's global variables become the fields of
`DaemonState`; every function that touches the operating system returns, next to the new
state, the list of effects it performed, in program order (hardware reads, injected input
events, message-port operations and timer requests).

Machine integers are `Nat` and `Int`; a cast that can truncate is written with an explicit
`% 256`, and `int` is taken to be 32 bits wide, so that `s_configByte << 16` does not
overflow.  Debug logging (`DebugLog`, `DebugLogF` and the debug console) only prints and is
left out.
-/

namespace XMouse

/-! ## Constants -/

/-- Constants that `xmouse.c` takes from the operating-system headers it includes
(`devices/inputevent.h`, `newmouse.h`, `dos/dos.h`).  The headers are not among the sources,
so the functions below take the constants as a parameter. -/
structure SysHeaders where
  IECLASS_RAWKEY : Nat
  IECLASS_NEWMOUSE : Nat
  IECODE_UP_PREFIX : Nat
  NM_WHEEL_UP : Nat
  NM_WHEEL_DOWN : Nat
  NM_BUTTON_FOURTH : Nat
  SIGBREAKF_CTRL_C : Nat
  deriving DecidableEq

/-- The values the header constants have in the AmigaOS NDK, used to evaluate examples. -/
def ndk : SysHeaders where
  IECLASS_RAWKEY := 0x01
  IECLASS_NEWMOUSE := 0x16
  IECODE_UP_PREFIX := 0x80
  NM_WHEEL_UP := 0x7A
  NM_WHEEL_DOWN := 0x7B
  NM_BUTTON_FOURTH := 0x7E
  SIGBREAKF_CTRL_C := 0x1000

/-- `#define NM_BUTTON_FIFTH (0x7F)` -/
def NM_BUTTON_FIFTH : Nat := 0x7F

/-- `#define SAGA_BUTTON4_MASK 0x0100` -/
def SAGA_BUTTON4_MASK : Nat := 0x0100

/-- `#define SAGA_BUTTON5_MASK 0x0200` -/
def SAGA_BUTTON5_MASK : Nat := 0x0200

/-- `#define XMSG_CMD_QUIT 0` -/
def XMSG_CMD_QUIT : Nat := 0

/-- `#define XMSG_CMD_SET_CONFIG 1` -/
def XMSG_CMD_SET_CONFIG : Nat := 1

/-- `#define XMSG_CMD_SET_INTERVAL 2` -/
def XMSG_CMD_SET_INTERVAL : Nat := 2

/-- `#define XMSG_CMD_GET_STATUS 3` -/
def XMSG_CMD_GET_STATUS : Nat := 3

/-- `#define CONFIG_WHEEL_ENABLED 0x01` -/
def CONFIG_WHEEL_ENABLED : Nat := 0x01

/-- `#define CONFIG_BUTTONS_ENABLED 0x02` -/
def CONFIG_BUTTONS_ENABLED : Nat := 0x02

/-- `#define CONFIG_INTERVAL_SHIFT 4` -/
def CONFIG_INTERVAL_SHIFT : Nat := 4

/-- `#define CONFIG_INTERVAL_MASK 0x30` -/
def CONFIG_INTERVAL_MASK : Nat := 0x30

/-- `#define CONFIG_STOP (CONFIG_WHEEL_ENABLED | CONFIG_BUTTONS_ENABLED)` -/
def CONFIG_STOP : Nat := CONFIG_WHEEL_ENABLED ||| CONFIG_BUTTONS_ENABLED

/-- `#define DEFAULT_CONFIG_BYTE 0x13` -/
def DEFAULT_CONFIG_BYTE : Nat := 0x13

/-- The table `s_pollIntervals[]`: poll intervals in microseconds. -/
def s_pollIntervals : List Nat := [5000, 10000, 20000, 40000]

/-! ## Data -/

/-- The fields of `struct InputEvent` that the daemon writes (`ie_NextEvent` is a pointer,
`0` standing for `NULL`; `tv_secs` and `tv_micro` are the two halves of `ie_TimeStamp`). -/
structure InputEvent where
  ie_NextEvent : Nat
  ie_Class : Nat
  ie_SubClass : Nat
  ie_Code : Nat
  ie_Qualifier : Nat
  ie_X : Int
  ie_Y : Int
  tv_secs : Nat
  tv_micro : Nat
  deriving DecidableEq

/-- The payload of `struct XMouseMsg`. -/
structure XMouseMsg where
  command : Nat
  value : Nat
  result : Nat
  deriving DecidableEq

/-- What the hardware returns when it is read during one loop iteration. -/
structure HwSample where
  /-- the value of `PeekQualifier()` -/
  qualifier : Nat
  /-- the value of `SAGA_WHEELCOUNTER` (a signed byte) -/
  wheel : Int
  /-- the value of `SAGA_MOUSE_BUTTONS` (a 16-bit word) -/
  buttons : Nat
  deriving DecidableEq

/-- The observable operations of the daemon, one constructor for each kind of call. -/
inductive Effect where
  /-- `PeekQualifier()` returned `q` -/
  | peekQualifier (q : Nat)
  /-- `SAGA_WHEELCOUNTER` was read and gave `v` -/
  | readWheel (v : Int)
  /-- `SAGA_MOUSE_BUTTONS` was read and gave `v` -/
  | readButtons (v : Nat)
  /-- `injectEvent` wrote a copy of the event buffer to input.device -/
  | inject (ev : InputEvent)
  /-- `GetMsg(s_PublicPort)` returned the message `m` -/
  | getMsg (m : XMouseMsg)
  /-- `ReplyMsg` sent back `m` -/
  | replyMsg (m : XMouseMsg)
  /-- `AbortIO(s_TimerReq)` -/
  | timerAbort
  /-- `WaitIO(s_TimerReq)` -/
  | timerWait
  /-- `TIMER_START`: a `TR_ADDREQUEST` for `secs` seconds and `micro` microseconds was sent -/
  | timerStart (secs micro : Nat)
  deriving DecidableEq

/-- The global variables of the daemon. -/
structure DaemonState where
  s_lastCounter : Int
  s_lastButtons : Nat
  s_pollInterval : Nat
  s_configByte : Nat
  s_eventBuf : InputEvent
  deriving DecidableEq

/-! ## Polling -/

/-- The macro `TIMER_START(micros)`. -/
def TIMER_START (micros : Nat) : List Effect :=
  [Effect.timerStart (micros / 1000000) (micros % 1000000)]

/-- The function `injectEvent`, called on the event buffer. -/
def injectEvent (ev : InputEvent) : List Effect :=
  [Effect.inject ev]

/-- Set `s_eventBuf.ie_Class`. -/
def setClass (s : DaemonState) (c : Nat) : DaemonState :=
  { s with s_eventBuf := { s.s_eventBuf with ie_Class := c } }

/-- Set `s_eventBuf.ie_Code`. -/
def setCode (s : DaemonState) (c : Nat) : DaemonState :=
  { s with s_eventBuf := { s.s_eventBuf with ie_Code := c } }

/-- The two injections that follow every assignment of `ie_Code`: the buffer is sent once
with class `IECLASS_RAWKEY` and once with class `IECLASS_NEWMOUSE`. -/
def injectBoth (K : SysHeaders) (s : DaemonState) : DaemonState × List Effect :=
  let s1 := setClass s K.IECLASS_RAWKEY
  let e1 := injectEvent s1.s_eventBuf
  let s2 := setClass s1 K.IECLASS_NEWMOUSE
  let e2 := injectEvent s2.s_eventBuf
  (s2, e1 ++ e2)

/-- The wrap-around delta of `daemon_processWheel`:
`delta = (int)(unsigned char)current - (int)(unsigned char)s_lastCounter`, then
`if (delta > 127) delta -= 256; else if (delta < -128) delta += 256;`. -/
def wheelDelta (current last : Int) : Int :=
  let delta := current % 256 - last % 256
  if delta > 127 then delta - 256
  else if delta < -128 then delta + 256
  else delta

/-- The loop `for (i = 0; i < count; i++)` of `daemon_processWheel`, by the number of
iterations left. -/
def wheelLoop (K : SysHeaders) : Nat → DaemonState → DaemonState × List Effect
  | 0, s => (s, [])
  | n + 1, s =>
    let r1 := injectBoth K s
    let r2 := wheelLoop K n r1.1
    (r2.1, r1.2 ++ r2.2)

/-- The function `daemon_processWheel`; `hwWheel` is what `SAGA_WHEELCOUNTER` reads. -/
def daemon_processWheel (K : SysHeaders) (s : DaemonState) (hwWheel : Int) :
    DaemonState × List Effect :=
  let current := hwWheel
  if current ≠ s.s_lastCounter then
    let delta := wheelDelta current s.s_lastCounter
    let s1 := { s with s_lastCounter := current }
    if delta ≠ 0 then
      let code := if delta > 0 then K.NM_WHEEL_UP else K.NM_WHEEL_DOWN
      let count := if delta > 0 then delta else -delta
      let s2 := setCode s1 code
      let r := wheelLoop K count.toNat s2
      (r.1, [Effect.readWheel hwWheel] ++ r.2)
    else (s1, [Effect.readWheel hwWheel])
  else (s, [Effect.readWheel hwWheel])

/-- The function `daemon_processButtons`; `hwButtons` is what `SAGA_MOUSE_BUTTONS` reads. -/
def daemon_processButtons (K : SysHeaders) (s : DaemonState) (hwButtons : Nat) :
    DaemonState × List Effect :=
  let current := hwButtons &&& (SAGA_BUTTON4_MASK ||| SAGA_BUTTON5_MASK)
  let changed := current ^^^ s.s_lastButtons
  if changed ≠ 0 then
    let r4 :=
      if changed &&& SAGA_BUTTON4_MASK ≠ 0 then
        let code := K.NM_BUTTON_FOURTH |||
          (if current &&& SAGA_BUTTON4_MASK ≠ 0 then 0 else K.IECODE_UP_PREFIX)
        injectBoth K (setCode s code)
      else (s, [])
    let r5 :=
      if changed &&& SAGA_BUTTON5_MASK ≠ 0 then
        let code := NM_BUTTON_FIFTH |||
          (if current &&& SAGA_BUTTON5_MASK ≠ 0 then 0 else K.IECODE_UP_PREFIX)
        injectBoth K (setCode r4.1 code)
      else (r4.1, [])
    ({ r5.1 with s_lastButtons := current }, [Effect.readButtons hwButtons] ++ r4.2 ++ r5.2)
  else (s, [Effect.readButtons hwButtons])

/-- The head of the branch `if (signals & timerSig)`: the event buffer is initialised and
the qualifier is captured (`ie_Qualifier = PeekQualifier()`, here `q`). -/
def initEventBuf (s : DaemonState) (q : Nat) : DaemonState :=
  { s with s_eventBuf := { s.s_eventBuf with
    ie_NextEvent := 0, ie_SubClass := 0, ie_Qualifier := q,
    ie_X := 0, ie_Y := 0, tv_secs := 0, tv_micro := 0 } }

/-- The statement `if (s_configByte & CONFIG_WHEEL_ENABLED) daemon_processWheel();`. -/
def gatedWheel (K : SysHeaders) (s : DaemonState) (hw : HwSample) : DaemonState × List Effect :=
  if s.s_configByte &&& CONFIG_WHEEL_ENABLED ≠ 0 then daemon_processWheel K s hw.wheel
  else (s, [])

/-- The statement `if (s_configByte & CONFIG_BUTTONS_ENABLED) daemon_processButtons();`. -/
def gatedButtons (K : SysHeaders) (s : DaemonState) (hw : HwSample) :
    DaemonState × List Effect :=
  if s.s_configByte &&& CONFIG_BUTTONS_ENABLED ≠ 0 then daemon_processButtons K s hw.buttons
  else (s, [])

/-- The branch `if (signals & timerSig)` of the loop in `daemon`: one tick. -/
def daemon_tick (K : SysHeaders) (s : DaemonState) (hw : HwSample) :
    DaemonState × List Effect :=
  let s0 := initEventBuf s hw.qualifier
  let rw := gatedWheel K s0 hw
  let rb := gatedButtons K rw.1 hw
  (rb.1, [Effect.peekQualifier hw.qualifier] ++ rw.2 ++ rb.2 ++ TIMER_START rb.1.s_pollInterval)

/-- Consecutive ticks, one for each hardware sample. -/
def runTicks (K : SysHeaders) : List HwSample → DaemonState → DaemonState × List Effect
  | [], s => (s, [])
  | hw :: rest, s =>
    let r1 := daemon_tick K s hw
    let r2 := runTicks K rest r1.1
    (r2.1, r1.2 ++ r2.2)

/-! ## Control messages and the main loop -/

/-- The interval selector of a configuration byte:
`(config & CONFIG_INTERVAL_MASK) >> CONFIG_INTERVAL_SHIFT`. -/
def intervalIndex (config : Nat) : Nat :=
  (config &&& CONFIG_INTERVAL_MASK) >>> CONFIG_INTERVAL_SHIFT

/-- What the `switch (msg->command)` in `daemon` leaves behind for one message. -/
structure MsgResult where
  /-- the globals after the message -/
  state : DaemonState
  /-- the local variable `quit` -/
  quit : Bool
  /-- the message as it is handed to `ReplyMsg` -/
  reply : XMouseMsg
  /-- the timer operations performed -/
  effects : List Effect
  deriving DecidableEq

/-- The `switch (msg->command)` in `daemon`. -/
def handleMsg (s : DaemonState) (quit : Bool) (msg : XMouseMsg) : MsgResult :=
  if msg.command = XMSG_CMD_QUIT then
    ⟨s, true, { msg with result := 0 }, []⟩
  else if msg.command = XMSG_CMD_SET_CONFIG then
    let oldConfig := s.s_configByte
    let newConfig := msg.value % 256
    let oldInterval := intervalIndex oldConfig
    let newInterval := intervalIndex newConfig
    let s1 := { s with s_configByte := newConfig }
    let msg1 := { msg with result := s1.s_configByte }
    if oldInterval ≠ newInterval then
      let s2 := { s1 with s_pollInterval := s_pollIntervals.getD newInterval 0 }
      ⟨s2, quit, msg1,
        [Effect.timerAbort, Effect.timerWait] ++ TIMER_START s2.s_pollInterval⟩
    else ⟨s1, quit, msg1, []⟩
  else if msg.command = XMSG_CMD_SET_INTERVAL then
    let s1 := { s with s_pollInterval := msg.value }
    ⟨s1, quit, { msg with result := s1.s_pollInterval },
      [Effect.timerAbort, Effect.timerWait] ++ TIMER_START s1.s_pollInterval⟩
  else if msg.command = XMSG_CMD_GET_STATUS then
    ⟨s, quit, { msg with result := (s.s_configByte <<< 16) ||| (s.s_pollInterval / 1000) }, []⟩
  else
    ⟨s, quit, { msg with result := 0xFFFFFFFF }, []⟩

/-- The loop `while ((msg = GetMsg(s_PublicPort)))`; the list holds the messages that
`GetMsg` returns, in the order they were queued. -/
def drain : List XMouseMsg → DaemonState → Bool → DaemonState × Bool × List Effect
  | [], s, quit => (s, quit, [])
  | msg :: rest, s, quit =>
    let r := handleMsg s quit msg
    let d := drain rest r.state r.quit
    (d.1, d.2.1, [Effect.getMsg msg] ++ r.effects ++ [Effect.replyMsg r.reply] ++ d.2.2)

/-- What one return of `Wait` finds: the signal mask, the messages queued on the public
port and the hardware registers. -/
structure Wake where
  signals : Nat
  queue : List XMouseMsg
  hw : HwSample
  deriving DecidableEq

/-- The outcome of one iteration of the `for (;;)` loop. -/
structure IterResult where
  /-- the iteration ended in `break` -/
  broke : Bool
  state : DaemonState
  quit : Bool
  effects : List Effect
  deriving DecidableEq

/-- One iteration of the `for (;;)` loop of `daemon`, after `Wait` has returned;
`timerSig` and `portSig` are the masks of the two ports' signal bits. -/
def daemon_iteration (K : SysHeaders) (timerSig portSig : Nat) (s : DaemonState)
    (quit : Bool) (w : Wake) : IterResult :=
  if w.signals &&& K.SIGBREAKF_CTRL_C ≠ 0 then ⟨true, s, quit, []⟩
  else
    let d := if w.signals &&& portSig ≠ 0 then drain w.queue s quit else (s, quit, [])
    if w.signals &&& portSig ≠ 0 ∧ d.2.1 = true then ⟨true, d.1, d.2.1, d.2.2⟩
    else
      let t := if w.signals &&& timerSig ≠ 0 then daemon_tick K d.1 w.hw else (d.1, [])
      ⟨false, t.1, d.2.1, d.2.2 ++ t.2⟩

/-- The `for (;;)` loop of `daemon` over the given wake-ups; the first component tells
whether the loop was left. -/
def daemon_loop (K : SysHeaders) (timerSig portSig : Nat) :
    List Wake → DaemonState → Bool → Bool × DaemonState × List Effect
  | [], s, _ => (false, s, [])
  | w :: ws, s, quit =>
    let r := daemon_iteration K timerSig portSig s quit w
    if r.broke then (true, r.state, r.effects)
    else
      let l := daemon_loop K timerSig portSig ws r.state r.quit
      (l.1, l.2.1, r.effects ++ l.2.2)

/-! ## Start-up -/

/-- The globals as the loader leaves them: statics without an initialiser are zero. -/
def staticState : DaemonState where
  s_lastCounter := 0
  s_lastButtons := 0
  s_pollInterval := 0
  s_configByte := 0
  s_eventBuf := ⟨0, 0, 0, 0, 0, 0, 0, 0, 0⟩

/-- The branch of `parseArguments` for an argument `0xBYTE` whose two hex digits have the
values `hi` and `lo`: `none` when the byte asks for a stop, otherwise the globals with the
configuration byte and the poll interval stored. -/
def parseArguments_hex (s : DaemonState) (hi lo : Nat) : Option DaemonState :=
  let configByte := ((hi <<< 4) ||| lo) % 256
  if configByte &&& CONFIG_STOP = 0 then none
  else
    some { s with s_configByte := configByte,
                  s_pollInterval := s_pollIntervals.getD (intervalIndex configByte) 0 }

/-- The end of a successful `daemon_Init`: the last-observed values are read from the
hardware, and the configuration byte and the poll interval get their defaults when unset. -/
def daemon_Init_state (s : DaemonState) (hw : HwSample) : DaemonState :=
  let s1 := { s with s_lastCounter := hw.wheel,
                     s_lastButtons := hw.buttons &&& (SAGA_BUTTON4_MASK ||| SAGA_BUTTON5_MASK) }
  let s2 := if s1.s_configByte = 0 then { s1 with s_configByte := DEFAULT_CONFIG_BYTE } else s1
  if s2.s_pollInterval = 0 then
    { s2 with s_pollInterval := s_pollIntervals.getD (intervalIndex s2.s_configByte) 0 }
  else s2

/-- The states the daemon can be in between two messages or ticks: it starts from a
successful `daemon_Init`, with the globals untouched or set by a hex argument, and then
handles control messages satisfying `allowed` and ticks, in any order. -/
inductive Reachable (K : SysHeaders) (allowed : XMouseMsg → Prop) : DaemonState → Prop
  | start (hw : HwSample) : Reachable K allowed (daemon_Init_state staticState hw)
  | startHex (hi lo : Nat) (s0 : DaemonState) (hw : HwSample) :
      hi < 16 → lo < 16 → parseArguments_hex staticState hi lo = some s0 →
      Reachable K allowed (daemon_Init_state s0 hw)
  | msg (s : DaemonState) (quit : Bool) (m : XMouseMsg) :
      Reachable K allowed s → allowed m → Reachable K allowed (handleMsg s quit m).state
  | tick (s : DaemonState) (hw : HwSample) :
      Reachable K allowed s → Reachable K allowed (daemon_tick K s hw).1

/-! ## Resources -/

/-- What `daemon_Init` acquires, in the order in which it does. -/
inductive Resource where
  /-- `OpenLibrary("dos.library", 36)` -/
  | dosLibrary
  /-- `s_PublicPort = CreateMsgPort()` -/
  | publicPort
  /-- `s_InputPort = CreateMsgPort()` -/
  | inputPort
  /-- `s_InputReq = CreateIORequest(s_InputPort, ...)` -/
  | inputReq
  /-- `OpenDevice("input.device", ...)` -/
  | inputDevice
  /-- `s_TimerPort = CreateMsgPort()` -/
  | timerPort
  /-- `s_TimerReq = CreateIORequest(s_TimerPort, ...)` -/
  | timerReq
  /-- `OpenDevice(TIMERNAME, UNIT_VBLANK, ...)` -/
  | timerDevice
  deriving DecidableEq

/-- The resource operations of `daemon_Init`, `daemon` and `daemon_Cleanup`. -/
inductive ResOp where
  /-- an acquisition that succeeded -/
  | acquire (r : Resource)
  /-- `CloseLibrary`, `DeleteMsgPort`, `DeleteIORequest` or `CloseDevice` -/
  | release (r : Resource)
  /-- `AddPort(s_PublicPort)` -/
  | addPort
  /-- `RemPort(s_PublicPort)` -/
  | remPort
  /-- `AbortIO(s_TimerReq)` in `daemon_Cleanup` -/
  | abortTimer
  /-- `WaitIO(s_TimerReq)` in `daemon_Cleanup` -/
  | waitTimer
  /-- the body of `if (daemon_Init())`: the timer is started and the loop runs -/
  | loop
  deriving DecidableEq

/-- The handles among the globals: `true` stands for a pointer that is not `NULL`;
`inputDevice` and `timerDevice` stand for the `io_Device` fields of the two requests. -/
structure Handles where
  DOSBase : Bool
  s_PublicPort : Bool
  s_InputPort : Bool
  s_InputReq : Bool
  inputDevice : Bool
  s_TimerPort : Bool
  s_TimerReq : Bool
  timerDevice : Bool
  deriving DecidableEq

/-- The handles as the loader leaves them: all `NULL`. -/
def noHandles : Handles :=
  ⟨false, false, false, false, false, false, false, false⟩

/-- The acquisitions of `daemon_Init`; `avail r` tells whether the call that acquires `r`
succeeds.  The result holds the value returned, the handles and the operations done. -/
def daemon_Init_resources (avail : Resource → Bool) (h : Handles) :
    Bool × Handles × List ResOp :=
  if avail Resource.dosLibrary = false then (false, { h with DOSBase := false }, [])
  else
    let h1 := { h with DOSBase := true }
    let o1 := [ResOp.acquire Resource.dosLibrary]
    if avail Resource.publicPort = false then (false, { h1 with s_PublicPort := false }, o1)
    else
      let h2 := { h1 with s_PublicPort := true }
      let o2 := o1 ++ [ResOp.acquire Resource.publicPort, ResOp.addPort]
      if avail Resource.inputPort = false then (false, { h2 with s_InputPort := false }, o2)
      else
        let h3 := { h2 with s_InputPort := true }
        let o3 := o2 ++ [ResOp.acquire Resource.inputPort]
        if avail Resource.inputReq = false then
          (false, { h3 with s_InputReq := false, s_InputPort := false },
            o3 ++ [ResOp.release Resource.inputPort])
        else
          let h4 := { h3 with s_InputReq := true, inputDevice := false }
          let o4 := o3 ++ [ResOp.acquire Resource.inputReq]
          if avail Resource.inputDevice = false then
            (false, { h4 with s_InputPort := false, s_InputReq := false },
              o4 ++ [ResOp.release Resource.inputReq, ResOp.release Resource.inputPort])
          else
            let h5 := { h4 with inputDevice := true }
            let o5 := o4 ++ [ResOp.acquire Resource.inputDevice]
            if avail Resource.timerPort = false then
              (false, { h5 with s_TimerPort := false }, o5)
            else
              let h6 := { h5 with s_TimerPort := true }
              let o6 := o5 ++ [ResOp.acquire Resource.timerPort]
              if avail Resource.timerReq = false then
                (false, { h6 with s_TimerReq := false, s_TimerPort := false },
                  o6 ++ [ResOp.release Resource.timerPort])
              else
                let h7 := { h6 with s_TimerReq := true, timerDevice := false }
                let o7 := o6 ++ [ResOp.acquire Resource.timerReq]
                if avail Resource.timerDevice = false then
                  (false, { h7 with s_TimerPort := false, s_TimerReq := false },
                    o7 ++ [ResOp.release Resource.timerReq, ResOp.release Resource.timerPort])
                else
                  (true, { h7 with timerDevice := true },
                    o7 ++ [ResOp.acquire Resource.timerDevice])

/-- The function `daemon_Cleanup`; `timerPending` tells whether `CheckIO` finds the timer
request still in progress. -/
def daemon_Cleanup (h : Handles) (timerPending : Bool) : List ResOp :=
  (if h.s_TimerReq then
    (if h.timerDevice then
      (if timerPending then [ResOp.abortTimer, ResOp.waitTimer] else []) ++
        [ResOp.release Resource.timerDevice]
     else []) ++ [ResOp.release Resource.timerReq]
   else []) ++
  (if h.s_TimerPort then [ResOp.release Resource.timerPort] else []) ++
  (if h.s_InputReq then
    (if h.inputDevice then [ResOp.release Resource.inputDevice] else []) ++
      [ResOp.release Resource.inputReq]
   else []) ++
  (if h.s_InputPort then [ResOp.release Resource.inputPort] else []) ++
  (if h.s_PublicPort then [ResOp.remPort, ResOp.release Resource.publicPort] else []) ++
  (if h.DOSBase then [ResOp.release Resource.dosLibrary] else [])

/-- The resource operations of the function `daemon` from its start to its return: those
of `daemon_Init`, the loop if `daemon_Init` returned `TRUE`, then `daemon_Cleanup`. -/
def daemon_resources (avail : Resource → Bool) (timerPending : Bool) : List ResOp :=
  (daemon_Init_resources avail noHandles).2.2 ++
  (if (daemon_Init_resources avail noHandles).1 then [ResOp.loop] else []) ++
  daemon_Cleanup (daemon_Init_resources avail noHandles).2.1 timerPending

/-- Follows the resources held through a list of operations: `none` when a resource is
acquired while held or released while not held, otherwise the resources held at the end. -/
def heldAfter : List Resource → List ResOp → Option (List Resource)
  | held, [] => some held
  | held, ResOp.acquire r :: ops =>
    if r ∈ held then none else heldAfter (r :: held) ops
  | held, ResOp.release r :: ops =>
    if r ∈ held then heldAfter (held.erase r) ops else none
  | held, _ :: ops => heldAfter held ops

/-- The resources released by a list of operations, in order. -/
def releases : List ResOp → List Resource
  | [] => []
  | ResOp.release r :: ops => r :: releases ops
  | _ :: ops => releases ops

/-- The resources acquired by a list of operations, in order. -/
def acquisitions : List ResOp → List Resource
  | [] => []
  | ResOp.acquire r :: ops => r :: acquisitions ops
  | _ :: ops => acquisitions ops

/-! ## The CIA timer of `CIA_Ressource_exmple.c` -/

/-- Constants that `CIA_Ressource_exmple.c` takes from `hardware/cia.h`, a header that is
not among the sources. -/
structure CiaHeaders where
  CIAICRB_TA : Nat
  CIAICRB_TB : Nat
  CIACRAF_START : Nat
  CIACRAF_PBON : Nat
  CIACRAF_OUTMODE : Nat
  CIACRAF_SPMODE : Nat
  CIACRAF_TODIN : Nat
  CIACRBF_START : Nat
  CIACRBF_PBON : Nat
  CIACRBF_OUTMODE : Nat
  CIACRBF_ALARM : Nat
  deriving DecidableEq

/-- The values the constants of `hardware/cia.h` have in the AmigaOS NDK, used to evaluate
examples. -/
def ciaNdk : CiaHeaders where
  CIAICRB_TA := 0
  CIAICRB_TB := 1
  CIACRAF_START := 0x01
  CIACRAF_PBON := 0x02
  CIACRAF_OUTMODE := 0x04
  CIACRAF_SPMODE := 0x40
  CIACRAF_TODIN := 0x80
  CIACRBF_START := 0x01
  CIACRBF_PBON := 0x02
  CIACRBF_OUTMODE := 0x04
  CIACRBF_ALARM := 0x80

/-- `#define STOPA_AND (CIACRAF_TODIN | CIACRAF_PBON | CIACRAF_OUTMODE | CIACRAF_SPMODE)` -/
def STOPA_AND (H : CiaHeaders) : Nat :=
  H.CIACRAF_TODIN ||| H.CIACRAF_PBON ||| H.CIACRAF_OUTMODE ||| H.CIACRAF_SPMODE

/-- `#define STOPB_AND (CIACRBF_ALARM | CIACRBF_PBON | CIACRBF_OUTMODE)` -/
def STOPB_AND (H : CiaHeaders) : Nat :=
  H.CIACRBF_ALARM ||| H.CIACRBF_PBON ||| H.CIACRBF_OUTMODE

/-- `#define STARTA_OR CIACRAF_START` -/
def STARTA_OR (H : CiaHeaders) : Nat := H.CIACRAF_START

/-- `#define STARTB_OR CIACRBF_START` -/
def STARTB_OR (H : CiaHeaders) : Nat := H.CIACRBF_START

/-- The two CIA chips; a value stands for the chip at its address (`0xbfe001`, `0xbfd000`)
and also for the base of its resource (`ciaa.resource`, `ciab.resource`). -/
inductive Chip where
  | ciaa
  | ciab
  deriving DecidableEq

/-- The fields of `struct CIA` that the example uses. -/
inductive CiaReg where
  | ciacra
  | ciacrb
  | ciatalo
  | ciatahi
  | ciatblo
  | ciatbhi
  deriving DecidableEq

/-- Who owns an interrupt vector of a CIA resource: the example's `CIAInt` or another
program's interrupt. -/
inductive Owner where
  | CIAInt
  | other
  deriving DecidableEq

/-- The calls into the CIA resources. -/
inductive CiaCall where
  | AddICRVector (resource : Chip) (bit : Nat)
  | RemICRVector (resource : Chip) (bit : Nat)
  deriving DecidableEq

/-- The CIA resources, the chip registers and the globals of the example. -/
structure CiaWorld where
  /-- the owner of every interrupt bit of the two resources -/
  vectors : Chip → Nat → Option Owner
  /-- the chip registers, one byte each -/
  regs : Chip → CiaReg → Nat
  CIABase : Option Chip
  CIAChip : Option Chip
  CIACr : Option (Chip × CiaReg)
  CIALo : Option (Chip × CiaReg)
  CIAHi : Option (Chip × CiaReg)
  StopMask : Nat
  StartMask : Nat
  /-- the calls made so far, in order -/
  calls : List CiaCall

/-- The resource call `AddICRVector(resource, bit, &CIAInt)`: when the bit has an owner
the call fails and returns the owner, otherwise the interrupt is installed and the call
returns `NULL`. -/
def AddICRVector (w : CiaWorld) (resource : Chip) (bit : Nat) : CiaWorld × Option Owner :=
  let w1 := { w with calls := w.calls ++ [CiaCall.AddICRVector resource bit] }
  match w.vectors resource bit with
  | some o => (w1, some o)
  | none =>
    ({ w1 with vectors := fun c b =>
        if c = resource ∧ b = bit then some Owner.CIAInt else w.vectors c b }, none)

/-- The resource call `RemICRVector(resource, bit, &CIAInt)`: the interrupt bit loses its
owner; with `checksOwner` the resource does so only when the owner is the interrupt
passed. -/
def RemICRVector (checksOwner : Bool) (w : CiaWorld) (resource : Chip) (bit : Nat) :
    CiaWorld :=
  { w with
    calls := w.calls ++ [CiaCall.RemICRVector resource bit]
    vectors := fun c b =>
      if c = resource ∧ b = bit ∧
          (checksOwner = false ∨ w.vectors c b = some Owner.CIAInt) then none
      else w.vectors c b }

/-- The function `AllocCIATimer`; its two mask pointers are always `&StopMask` and
`&StartMask`. -/
def AllocCIATimer (H : CiaHeaders) (w : CiaWorld) (ciabase cia : Chip) (timerbit : Nat) :
    CiaWorld × Bool :=
  let r := AddICRVector w ciabase timerbit
  if r.2 = none then
    let w1 :=
      if timerbit = H.CIAICRB_TA then
        { r.1 with CIACr := some (cia, CiaReg.ciacra), CIALo := some (cia, CiaReg.ciatalo),
                   CIAHi := some (cia, CiaReg.ciatahi),
                   StopMask := STOPA_AND H % 256, StartMask := STARTA_OR H % 256 }
      else
        { r.1 with CIACr := some (cia, CiaReg.ciacrb), CIALo := some (cia, CiaReg.ciatblo),
                   CIAHi := some (cia, CiaReg.ciatbhi),
                   StopMask := STOPB_AND H % 256, StartMask := STARTB_OR H % 256 }
    ({ w1 with CIAChip := some cia, CIABase := some ciabase }, true)
  else (r.1, false)

/-- The function `FindFreeCIATimer`; `ciaaOpen` and `ciabOpen` tell whether the two calls
of `OpenResource` succeed. -/
def FindFreeCIATimer (H : CiaHeaders) (w : CiaWorld) (ciaaOpen ciabOpen : Bool) :
    CiaWorld × Bool :=
  if ciaaOpen = false ∨ ciabOpen = false then (w, false)
  else
    let r1 := AllocCIATimer H w Chip.ciaa Chip.ciaa H.CIAICRB_TA
    if r1.2 then (r1.1, true)
    else
      let r2 := AllocCIATimer H r1.1 Chip.ciaa Chip.ciaa H.CIAICRB_TB
      if r2.2 then (r2.1, true)
      else
        let r3 := AllocCIATimer H r2.1 Chip.ciab Chip.ciab H.CIAICRB_TA
        if r3.2 then (r3.1, true)
        else
          let r4 := AllocCIATimer H r3.1 Chip.ciab Chip.ciab H.CIAICRB_TB
          if r4.2 then (r4.1, true)
          else (r4.1, false)

/-- The function `StopCIATimer`; `Disable`, `Enable` and `Printf` are left out. -/
def StopCIATimer (H : CiaHeaders) (checksOwner : Bool) (w : CiaWorld) : CiaWorld :=
  let w1 :=
    match w.CIACr with
    | some cr =>
      { w with regs := fun c r =>
          if (c, r) = cr then w.regs c r &&& w.StopMask else w.regs c r }
    | none => w
  match w1.CIABase with
  | some base => RemICRVector checksOwner w1 base H.CIAICRB_TA
  | none => w1

/-- The four candidate timers in the order in which `FindFreeCIATimer` tries them. -/
def candidates (H : CiaHeaders) : List (Chip × Nat) :=
  [(Chip.ciaa, H.CIAICRB_TA), (Chip.ciaa, H.CIAICRB_TB),
   (Chip.ciab, H.CIAICRB_TA), (Chip.ciab, H.CIAICRB_TB)]

/-- The first candidate of a list whose interrupt bit has no owner. -/
def firstFree (w : CiaWorld) : List (Chip × Nat) → Option (Chip × Nat)
  | [] => none
  | c :: cs => if w.vectors c.1 c.2 = none then some c else firstFree w cs

/-- The candidates of a list up to the first free one, this one included. -/
def attempted (w : CiaWorld) : List (Chip × Nat) → List (Chip × Nat)
  | [] => []
  | c :: cs => if w.vectors c.1 c.2 = none then [c] else c :: attempted w cs

/-- A world in which nothing is installed and no timer was acquired; `busy` lists the
interrupt bits owned by other programs. -/
def idleWorld (busy : List (Chip × Nat)) : CiaWorld where
  vectors := fun c b => if (c, b) ∈ busy then some Owner.other else none
  regs := fun _ _ => 0xFF
  CIABase := none
  CIAChip := none
  CIACr := none
  CIALo := none
  CIAHi := none
  StopMask := 0
  StartMask := 0
  calls := []

/-! ## Reading the effects -/

/-- The input events among a list of effects, in order. -/
def injected : List Effect → List InputEvent
  | [] => []
  | Effect.inject ev :: es => ev :: injected es
  | _ :: es => injected es

/-- The two events of one pair: the buffer `buf` with code `code`, sent with class
`IECLASS_RAWKEY` and then with class `IECLASS_NEWMOUSE`. -/
def eventPair (K : SysHeaders) (buf : InputEvent) (code : Nat) : List InputEvent :=
  [{ buf with ie_Class := K.IECLASS_RAWKEY, ie_Code := code },
   { buf with ie_Class := K.IECLASS_NEWMOUSE, ie_Code := code }]

/-- One pair for each code in the list, in order. -/
def eventPairs (K : SysHeaders) (buf : InputEvent) : List Nat → List InputEvent
  | [] => []
  | code :: codes => eventPair K buf code ++ eventPairs K buf codes

/-- The normalized difference of two wheel counter values, stated without the code's
steps: the representative in the range -128..127 of `current - last` modulo 256. -/
def normalizedDelta (current last : Int) : Int :=
  (current - last + 128) % 256 - 128

/-- Two event buffers agree in every field other than `ie_Class` and `ie_Code`, the two
fields that `daemon_processWheel` and `daemon_processButtons` assign. -/
def sameFrame (a b : InputEvent) : Prop :=
  a.ie_NextEvent = b.ie_NextEvent ∧ a.ie_SubClass = b.ie_SubClass ∧
  a.ie_Qualifier = b.ie_Qualifier ∧ a.ie_X = b.ie_X ∧ a.ie_Y = b.ie_Y ∧
  a.tv_secs = b.tv_secs ∧ a.tv_micro = b.tv_micro

instance (a b : InputEvent) : Decidable (sameFrame a b) := by
  unfold sameFrame; infer_instance

/-- The codes of the button events a tick owes when the stored mask is `last` and the mask
read is `current`: button 4 and then button 5, each only if its bit differs between the
two, the code being the button's identifier, or-ed with `IECODE_UP_PREFIX` when the bit is
clear in `current`. -/
def buttonEdgeCodes (K : SysHeaders) (last current : Nat) : List Nat :=
  (if current &&& SAGA_BUTTON4_MASK ≠ last &&& SAGA_BUTTON4_MASK then
    [K.NM_BUTTON_FOURTH |||
      (if current &&& SAGA_BUTTON4_MASK ≠ 0 then 0 else K.IECODE_UP_PREFIX)]
   else []) ++
  (if current &&& SAGA_BUTTON5_MASK ≠ last &&& SAGA_BUTTON5_MASK then
    [NM_BUTTON_FIFTH |||
      (if current &&& SAGA_BUTTON5_MASK ≠ 0 then 0 else K.IECODE_UP_PREFIX)]
   else [])

/-- The codes a button event can carry: the identifiers of buttons 4 and 5, each without
and with `IECODE_UP_PREFIX`. -/
def buttonCodes (K : SysHeaders) : List Nat :=
  [K.NM_BUTTON_FOURTH ||| 0, K.NM_BUTTON_FOURTH ||| K.IECODE_UP_PREFIX,
   NM_BUTTON_FIFTH ||| 0, NM_BUTTON_FIFTH ||| K.IECODE_UP_PREFIX]

/-- The operations on the public port: `GetMsg` and `ReplyMsg`. -/
def isPortOp : Effect → Bool
  | Effect.getMsg _ => true
  | Effect.replyMsg _ => true
  | _ => false

/-- The operations on the public port among a list of effects, in order. -/
def portOps (es : List Effect) : List Effect :=
  es.filter isPortOp

/-- The messages handed to `ReplyMsg` among a list of effects, in order. -/
def replied : List Effect → List XMouseMsg
  | [] => []
  | Effect.replyMsg m :: es => m :: replied es
  | _ :: es => replied es

/-- The port operations of a drain in which every message is dequeued and then replied to
with its result before the next message is dequeued. -/
def replyTrace : List (XMouseMsg × Nat) → List Effect
  | [] => []
  | (m, r) :: rest => Effect.getMsg m :: Effect.replyMsg { m with result := r } :: replyTrace rest

/-- The interval field of a status word `configByte << 16 | intervalMillis`: its low
16 bits. -/
def statusIntervalMillis (result : Nat) : Nat :=
  result % 65536

/-- Follows the timer request through a list of effects.  The flag tells whether the
request is outstanding (sent and neither completed nor aborted and awaited); `WaitIO`
returns only once the request is done, and `TIMER_START` sends it.  The result is `none`
when `TIMER_START` is reached while the request is outstanding. -/
def timerCheck : Bool → List Effect → Option Bool
  | o, [] => some o
  | o, Effect.timerStart _ _ :: es => if o then none else timerCheck true es
  | _, Effect.timerWait :: es => timerCheck false es
  | o, _ :: es => timerCheck o es

/-- The timer operations among a list of effects, in order. -/
def timerOps : List Effect → List Effect
  | [] => []
  | Effect.timerAbort :: es => Effect.timerAbort :: timerOps es
  | Effect.timerWait :: es => Effect.timerWait :: timerOps es
  | Effect.timerStart a b :: es => Effect.timerStart a b :: timerOps es
  | _ :: es => timerOps es

/-! ## Lemmas on effect lists -/

@[simp] theorem injected_nil : injected [] = [] := rfl

@[simp] theorem injected_cons_inject (ev : InputEvent) (es : List Effect) :
    injected (Effect.inject ev :: es) = ev :: injected es := rfl

@[simp] theorem injected_cons_peekQualifier (q : Nat) (es : List Effect) :
    injected (Effect.peekQualifier q :: es) = injected es := rfl

@[simp] theorem injected_cons_readWheel (v : Int) (es : List Effect) :
    injected (Effect.readWheel v :: es) = injected es := rfl

@[simp] theorem injected_cons_readButtons (v : Nat) (es : List Effect) :
    injected (Effect.readButtons v :: es) = injected es := rfl

@[simp] theorem injected_cons_getMsg (m : XMouseMsg) (es : List Effect) :
    injected (Effect.getMsg m :: es) = injected es := rfl

@[simp] theorem injected_cons_replyMsg (m : XMouseMsg) (es : List Effect) :
    injected (Effect.replyMsg m :: es) = injected es := rfl

@[simp] theorem injected_cons_timerAbort (es : List Effect) :
    injected (Effect.timerAbort :: es) = injected es := rfl

@[simp] theorem injected_cons_timerWait (es : List Effect) :
    injected (Effect.timerWait :: es) = injected es := rfl

@[simp] theorem injected_cons_timerStart (a b : Nat) (es : List Effect) :
    injected (Effect.timerStart a b :: es) = injected es := rfl

@[simp] theorem injected_append (a b : List Effect) :
    injected (a ++ b) = injected a ++ injected b := by
  induction a with
  | nil => rfl
  | cons e es ih => cases e <;> simp [ih]

@[simp] theorem injected_map_inject (l : List InputEvent) :
    injected (l.map Effect.inject) = l := by
  induction l with
  | nil => rfl
  | cons e es ih => simp [ih]

@[simp] theorem injected_TIMER_START (m : Nat) : injected (TIMER_START m) = [] := rfl

theorem eventPairs_length (K : SysHeaders) (buf : InputEvent) (codes : List Nat) :
    (eventPairs K buf codes).length = 2 * codes.length := by
  induction codes with
  | nil => rfl
  | cons c cs ih => simp [eventPairs, eventPair, ih]; omega

theorem eventPairs_append (K : SysHeaders) (buf : InputEvent) (xs ys : List Nat) :
    eventPairs K buf (xs ++ ys) = eventPairs K buf xs ++ eventPairs K buf ys := by
  induction xs with
  | nil => rfl
  | cons c cs ih => simp [eventPairs, ih]

theorem sameFrame_refl (a : InputEvent) : sameFrame a a :=
  ⟨rfl, rfl, rfl, rfl, rfl, rfl, rfl⟩

theorem sameFrame_trans {a b c : InputEvent} (h1 : sameFrame a b) (h2 : sameFrame b c) :
    sameFrame a c := by
  obtain ⟨a1, a2, a3, a4, a5, a6, a7⟩ := h1
  obtain ⟨b1, b2, b3, b4, b5, b6, b7⟩ := h2
  exact ⟨a1.trans b1, a2.trans b2, a3.trans b3, a4.trans b4, a5.trans b5, a6.trans b6,
    a7.trans b7⟩

theorem eventPair_sameFrame (K : SysHeaders) {a b : InputEvent} (h : sameFrame a b)
    (code : Nat) : eventPair K a code = eventPair K b code := by
  obtain ⟨h1, h2, h3, h4, h5, h6, h7⟩ := h
  cases a; cases b
  simp only at h1 h2 h3 h4 h5 h6 h7
  simp [eventPair, h1, h2, h3, h4, h5, h6, h7]

theorem eventPairs_sameFrame (K : SysHeaders) {a b : InputEvent} (h : sameFrame a b)
    (codes : List Nat) : eventPairs K a codes = eventPairs K b codes := by
  induction codes with
  | nil => rfl
  | cons c cs ih => simp only [eventPairs, ih, eventPair_sameFrame K h]

/-! ## Wheel -/

theorem injectBoth_effects (K : SysHeaders) (s : DaemonState) :
    (injectBoth K s).2 =
      (eventPair K s.s_eventBuf s.s_eventBuf.ie_Code).map Effect.inject := rfl

theorem injectBoth_state (K : SysHeaders) (s : DaemonState) :
    (injectBoth K s).1 = setClass s K.IECLASS_NEWMOUSE := rfl

theorem injectBoth_frame (K : SysHeaders) (s : DaemonState) :
    (injectBoth K s).1.s_lastCounter = s.s_lastCounter ∧
    (injectBoth K s).1.s_lastButtons = s.s_lastButtons ∧
    (injectBoth K s).1.s_pollInterval = s.s_pollInterval ∧
    (injectBoth K s).1.s_configByte = s.s_configByte := ⟨rfl, rfl, rfl, rfl⟩

theorem setClass_sameFrame (s : DaemonState) (c : Nat) :
    sameFrame (setClass s c).s_eventBuf s.s_eventBuf := ⟨rfl, rfl, rfl, rfl, rfl, rfl, rfl⟩

theorem setCode_sameFrame (s : DaemonState) (c : Nat) :
    sameFrame (setCode s c).s_eventBuf s.s_eventBuf := ⟨rfl, rfl, rfl, rfl, rfl, rfl, rfl⟩

theorem wheelLoop_effects (K : SysHeaders) (n : Nat) (s : DaemonState) :
    (wheelLoop K n s).2 =
      (eventPairs K s.s_eventBuf (List.replicate n s.s_eventBuf.ie_Code)).map Effect.inject := by
  induction n generalizing s with
  | zero => rfl
  | succ n ih =>
    simp only [wheelLoop, List.replicate_succ, eventPairs, List.map_append, ih,
      injectBoth_effects, injectBoth_state]
    rw [eventPairs_sameFrame K (setClass_sameFrame s K.IECLASS_NEWMOUSE)]
    rfl

theorem wheelLoop_frame (K : SysHeaders) (n : Nat) (s : DaemonState) :
    (wheelLoop K n s).1.s_lastCounter = s.s_lastCounter ∧
    (wheelLoop K n s).1.s_lastButtons = s.s_lastButtons ∧
    (wheelLoop K n s).1.s_pollInterval = s.s_pollInterval ∧
    (wheelLoop K n s).1.s_configByte = s.s_configByte := by
  induction n generalizing s with
  | zero => simp [wheelLoop]
  | succ n ih =>
    simp only [wheelLoop, injectBoth_state]
    exact ih _

theorem wheelLoop_sameFrame (K : SysHeaders) (n : Nat) (s : DaemonState) :
    sameFrame (wheelLoop K n s).1.s_eventBuf s.s_eventBuf := by
  induction n generalizing s with
  | zero => exact sameFrame_refl _
  | succ n ih =>
    simp only [wheelLoop, injectBoth_state]
    exact sameFrame_trans (ih _) (setClass_sameFrame s _)

theorem wheelDelta_self (x : Int) : wheelDelta x x = 0 := by
  simp [wheelDelta]

theorem processWheel_lastCounter (K : SysHeaders) (s : DaemonState) (w : Int) :
    (daemon_processWheel K s w).1.s_lastCounter = w := by
  by_cases h1 : w = s.s_lastCounter
  · simp [daemon_processWheel, h1]
  · by_cases h2 : wheelDelta w s.s_lastCounter = 0
    · simp [daemon_processWheel, h1, h2]
    · simp only [daemon_processWheel, ne_eq, h1, h2, not_false_eq_true, if_true]
      exact (wheelLoop_frame K _ _).1

theorem processWheel_frame (K : SysHeaders) (s : DaemonState) (w : Int) :
    (daemon_processWheel K s w).1.s_lastButtons = s.s_lastButtons ∧
    (daemon_processWheel K s w).1.s_pollInterval = s.s_pollInterval ∧
    (daemon_processWheel K s w).1.s_configByte = s.s_configByte := by
  by_cases h1 : w = s.s_lastCounter
  · simp [daemon_processWheel, h1]
  · by_cases h2 : wheelDelta w s.s_lastCounter = 0
    · simp [daemon_processWheel, h1, h2]
    · simp only [daemon_processWheel, ne_eq, h1, h2, not_false_eq_true, if_true]
      exact (wheelLoop_frame K _ _).2

theorem processWheel_injected (K : SysHeaders) (s : DaemonState) (w : Int) :
    injected (daemon_processWheel K s w).2 =
      eventPairs K s.s_eventBuf (List.replicate (wheelDelta w s.s_lastCounter).natAbs
        (if wheelDelta w s.s_lastCounter > 0 then K.NM_WHEEL_UP else K.NM_WHEEL_DOWN)) := by
  by_cases h1 : w = s.s_lastCounter
  · simp [daemon_processWheel, h1, wheelDelta_self, eventPairs]
  · by_cases h2 : wheelDelta w s.s_lastCounter = 0
    · simp [daemon_processWheel, h1, h2, eventPairs]
    · have hc : (if wheelDelta w s.s_lastCounter > 0 then wheelDelta w s.s_lastCounter
          else -wheelDelta w s.s_lastCounter).toNat = (wheelDelta w s.s_lastCounter).natAbs := by
        split_ifs <;> omega
      simp only [daemon_processWheel, ne_eq, h1, h2, not_false_eq_true, if_true,
        injected_append, wheelLoop_effects, injected_map_inject, hc]
      rw [eventPairs_sameFrame K (setCode_sameFrame _ _)]
      rfl

theorem processButtons_frame (K : SysHeaders) (s : DaemonState) (b : Nat) :
    (daemon_processButtons K s b).1.s_lastCounter = s.s_lastCounter ∧
    (daemon_processButtons K s b).1.s_pollInterval = s.s_pollInterval ∧
    (daemon_processButtons K s b).1.s_configByte = s.s_configByte := by
  simp only [daemon_processButtons]
  by_cases h : (b &&& (SAGA_BUTTON4_MASK ||| SAGA_BUTTON5_MASK)) ^^^ s.s_lastButtons = 0
  · simp only [ne_eq, h, not_true_eq_false, if_false]
    first | exact ⟨rfl, rfl, rfl⟩ | simp [injectBoth, setClass, setCode]
  · simp only [ne_eq, h, not_false_eq_true, if_true]
    by_cases h4 : ((b &&& (SAGA_BUTTON4_MASK ||| SAGA_BUTTON5_MASK)) ^^^ s.s_lastButtons)
        &&& SAGA_BUTTON4_MASK = 0 <;>
    by_cases h5 : ((b &&& (SAGA_BUTTON4_MASK ||| SAGA_BUTTON5_MASK)) ^^^ s.s_lastButtons)
        &&& SAGA_BUTTON5_MASK = 0 <;>
    simp only [h4, h5, not_true_eq_false, not_false_eq_true, if_true, if_false] <;>
    first | exact ⟨rfl, rfl, rfl⟩ | simp [injectBoth, setClass, setCode]

theorem gatedButtons_frame (K : SysHeaders) (s : DaemonState) (hw : HwSample) :
    (gatedButtons K s hw).1.s_lastCounter = s.s_lastCounter ∧
    (gatedButtons K s hw).1.s_pollInterval = s.s_pollInterval ∧
    (gatedButtons K s hw).1.s_configByte = s.s_configByte := by
  simp only [gatedButtons]
  split_ifs
  · exact processButtons_frame K s hw.buttons
  · exact ⟨rfl, rfl, rfl⟩

/-- C1, with the bound the code has: for all `last` and `current` (in particular for all
signed 8-bit values) the delta computed by `daemon_processWheel` lies in the closed range
`-128 ≤ delta ≤ 127` and satisfies `(last + delta) mod 256 = current mod 256`. -/
theorem wheelDelta_normalized (last current : Int) :
    -128 ≤ wheelDelta current last ∧ wheelDelta current last ≤ 127 ∧
    (last + wheelDelta current last) % 256 = current % 256 := by
  simp only [wheelDelta]
  refine ⟨?_, ?_, ?_⟩ <;> (split_ifs <;> omega)

/-- C1 as stated fails: for the signed 8-bit values `last = -128` and `current = 0` the
delta is `-128`, so `-128 < delta` does not hold; `daemon_processWheel` then injects 128
pairs of events. -/
theorem wheelDelta_minus128 :
    wheelDelta 0 (-128) = -128 ∧
    ¬ (-128 < wheelDelta 0 (-128) ∧ wheelDelta 0 (-128) ≤ 127 ∧
        (-128 + wheelDelta 0 (-128)) % 256 = (0 : Int) % 256) ∧
    (injected (daemon_processWheel ndk { staticState with s_lastCounter := -128 } 0).2).length
      = 2 * 128 := by
  refine ⟨by decide, by decide, ?_⟩
  rw [processWheel_injected, eventPairs_length, List.length_replicate]
  decide

theorem normalizedDelta_spec (current last : Int) :
    -128 ≤ normalizedDelta current last ∧ normalizedDelta current last ≤ 127 ∧
    (last + normalizedDelta current last) % 256 = current % 256 := by
  simp only [normalizedDelta]
  omega

theorem normalizedDelta_unique (current last d : Int) (h1 : -128 ≤ d) (h2 : d ≤ 127)
    (h3 : (last + d) % 256 = current % 256) : d = normalizedDelta current last := by
  simp only [normalizedDelta]
  omega

theorem wheelDelta_eq_normalizedDelta (current last : Int) :
    wheelDelta current last = normalizedDelta current last := by
  simp only [wheelDelta, normalizedDelta]
  split_ifs <;> omega

/-- C2: on a tick with `CONFIG_WHEEL_ENABLED` set, whatever `s_lastCounter` holds and
whatever the wheel counter reads, `daemon_processWheel` injects exactly `|delta|` event
pairs, every pair carrying `NM_WHEEL_UP` when `delta > 0` and `NM_WHEEL_DOWN` when
`delta < 0`, where `delta` is the normalized difference `normalizedDelta`: the one integer
in -128..127 with `(last + delta) mod 256 = current mod 256`.  Afterwards, also at the end
of the tick, `s_lastCounter` is the value read; the tick injects these events before any
button event. -/
theorem processWheel_emits (K : SysHeaders) (s : DaemonState) (hw : HwSample)
    (hen : s.s_configByte &&& CONFIG_WHEEL_ENABLED ≠ 0) :
    (-128 ≤ normalizedDelta hw.wheel s.s_lastCounter ∧
      normalizedDelta hw.wheel s.s_lastCounter ≤ 127 ∧
      (s.s_lastCounter + normalizedDelta hw.wheel s.s_lastCounter) % 256 = hw.wheel % 256 ∧
      ∀ d : Int, -128 ≤ d → d ≤ 127 → (s.s_lastCounter + d) % 256 = hw.wheel % 256 →
        d = normalizedDelta hw.wheel s.s_lastCounter) ∧
    injected (daemon_processWheel K (initEventBuf s hw.qualifier) hw.wheel).2 =
      eventPairs K (initEventBuf s hw.qualifier).s_eventBuf
        (List.replicate (normalizedDelta hw.wheel s.s_lastCounter).natAbs
          (if normalizedDelta hw.wheel s.s_lastCounter > 0 then K.NM_WHEEL_UP
           else K.NM_WHEEL_DOWN)) ∧
    (injected (daemon_processWheel K (initEventBuf s hw.qualifier) hw.wheel).2).length =
      2 * (normalizedDelta hw.wheel s.s_lastCounter).natAbs ∧
    (daemon_processWheel K (initEventBuf s hw.qualifier) hw.wheel).1.s_lastCounter = hw.wheel ∧
    (daemon_tick K s hw).1.s_lastCounter = hw.wheel ∧
    injected (daemon_tick K s hw).2 =
      injected (daemon_processWheel K (initEventBuf s hw.qualifier) hw.wheel).2 ++
      injected (gatedButtons K
        (daemon_processWheel K (initEventBuf s hw.qualifier) hw.wheel).1 hw).2 := by
  have hg : gatedWheel K (initEventBuf s hw.qualifier) hw =
      daemon_processWheel K (initEventBuf s hw.qualifier) hw.wheel := by
    have : (initEventBuf s hw.qualifier).s_configByte = s.s_configByte := rfl
    simp only [gatedWheel, this]
    rw [if_pos hen]
  have hi := processWheel_injected K (initEventBuf s hw.qualifier) hw.wheel
  have hl : (initEventBuf s hw.qualifier).s_lastCounter = s.s_lastCounter := rfl
  rw [hl, wheelDelta_eq_normalizedDelta] at hi
  obtain ⟨n1, n2, n3⟩ := normalizedDelta_spec hw.wheel s.s_lastCounter
  refine ⟨⟨n1, n2, n3, fun d h1 h2 h3 => normalizedDelta_unique _ _ d h1 h2 h3⟩, hi, ?_,
    processWheel_lastCounter K _ _, ?_, ?_⟩
  · rw [hi, eventPairs_length, List.length_replicate]
  · simp only [daemon_tick, hg]
    rw [(gatedButtons_frame K _ hw).1]
    exact processWheel_lastCounter K _ _
  · simp only [daemon_tick, hg, injected_append, injected_TIMER_START]
    simp

/-- An instance of C2, with the two scenarios of the claim and two reads across the wrap:
from `s_lastCounter = 0` a read of `3` gives exactly three `NM_WHEEL_UP` pairs and
`s_lastCounter = 3`; from `s_lastCounter = 2` a read of the byte 250 (`-6` as a signed
byte) gives exactly eight `NM_WHEEL_DOWN` pairs; from `s_lastCounter = 127` a read of
`-128` gives one `NM_WHEEL_UP` pair and `s_lastCounter = -128`; from `s_lastCounter = -128`
a read of `127` gives one `NM_WHEEL_DOWN` pair. -/
theorem processWheel_emits_witness :
    ({ staticState with s_configByte := 0x13 } : DaemonState).s_configByte
        &&& CONFIG_WHEEL_ENABLED ≠ 0 ∧
    injected (daemon_tick ndk { staticState with s_configByte := 0x13 } ⟨0x8000, 3, 0⟩).2 =
      [⟨0, 0x01, 0, 0x7A, 0x8000, 0, 0, 0, 0⟩, ⟨0, 0x16, 0, 0x7A, 0x8000, 0, 0, 0, 0⟩,
       ⟨0, 0x01, 0, 0x7A, 0x8000, 0, 0, 0, 0⟩, ⟨0, 0x16, 0, 0x7A, 0x8000, 0, 0, 0, 0⟩,
       ⟨0, 0x01, 0, 0x7A, 0x8000, 0, 0, 0, 0⟩, ⟨0, 0x16, 0, 0x7A, 0x8000, 0, 0, 0, 0⟩] ∧
    (daemon_tick ndk { staticState with s_configByte := 0x13 } ⟨0x8000, 3, 0⟩).1.s_lastCounter
      = 3 ∧
    injected (daemon_tick ndk { staticState with s_configByte := 0x13, s_lastCounter := 2 }
        ⟨0, -6, 0⟩).2 =
      eventPairs ndk ⟨0, 0, 0, 0, 0, 0, 0, 0, 0⟩ (List.replicate 8 0x7B) ∧
    injected (daemon_tick ndk { staticState with s_configByte := 0x13, s_lastCounter := 127 }
        ⟨0, -128, 0⟩).2 =
      [⟨0, 0x01, 0, 0x7A, 0, 0, 0, 0, 0⟩, ⟨0, 0x16, 0, 0x7A, 0, 0, 0, 0, 0⟩] ∧
    (daemon_tick ndk { staticState with s_configByte := 0x13, s_lastCounter := 127 }
        ⟨0, -128, 0⟩).1.s_lastCounter = -128 ∧
    injected (daemon_tick ndk { staticState with s_configByte := 0x13, s_lastCounter := -128 }
        ⟨0, 127, 0⟩).2 =
      [⟨0, 0x01, 0, 0x7B, 0, 0, 0, 0, 0⟩, ⟨0, 0x16, 0, 0x7B, 0, 0, 0, 0, 0⟩] := by
  have h1 := processWheel_emits ndk { staticState with s_configByte := 0x13 } ⟨0x8000, 3, 0⟩
    (by decide)
  have h2 := processWheel_emits ndk { staticState with s_configByte := 0x13, s_lastCounter := 2 }
    ⟨0, -6, 0⟩ (by decide)
  have h3 := processWheel_emits ndk
    { staticState with s_configByte := 0x13, s_lastCounter := 127 } ⟨0, -128, 0⟩ (by decide)
  have h4 := processWheel_emits ndk
    { staticState with s_configByte := 0x13, s_lastCounter := -128 } ⟨0, 127, 0⟩ (by decide)
  refine ⟨by decide, ?_, h1.2.2.2.2.1, ?_, ?_, h3.2.2.2.2.1, ?_⟩
  · rw [h1.2.2.2.2.2, h1.2.1]; decide
  · rw [h2.2.2.2.2.2, h2.2.1]; decide
  · rw [h3.2.2.2.2.2, h3.2.1]; decide
  · rw [h4.2.2.2.2.2, h4.2.1]; decide

/-! ## Buttons -/

theorem bit_changed_iff (a b m : Nat) : (a ^^^ b) &&& m ≠ 0 ↔ a &&& m ≠ b &&& m := by
  rw [Nat.and_xor_distrib_right, ne_eq, ne_eq, Nat.xor_eq_zero]

theorem processButtons_injected (K : SysHeaders) (s : DaemonState) (b : Nat) :
    injected (daemon_processButtons K s b).2 =
      eventPairs K s.s_eventBuf
        (buttonEdgeCodes K s.s_lastButtons (b &&& (SAGA_BUTTON4_MASK ||| SAGA_BUTTON5_MASK))) := by
  simp only [daemon_processButtons, buttonEdgeCodes]
  generalize b &&& (SAGA_BUTTON4_MASK ||| SAGA_BUTTON5_MASK) = cur
  by_cases h : cur ^^^ s.s_lastButtons = 0
  · have hc : cur = s.s_lastButtons := Nat.xor_eq_zero.mp h
    simp [h, hc, eventPairs]
  · simp only [ne_eq, h, not_false_eq_true, if_true]
    have e4 := bit_changed_iff cur s.s_lastButtons SAGA_BUTTON4_MASK
    have e5 := bit_changed_iff cur s.s_lastButtons SAGA_BUTTON5_MASK
    simp only [ne_eq] at e4 e5
    by_cases h4 : (cur ^^^ s.s_lastButtons) &&& SAGA_BUTTON4_MASK = 0 <;>
    by_cases h5 : (cur ^^^ s.s_lastButtons) &&& SAGA_BUTTON5_MASK = 0 <;>
    simp only [h4, h5, ← e4, ← e5, not_true_eq_false, not_false_eq_true, if_true, if_false,
      injected_append, injected_cons_readButtons, injected_nil, List.nil_append,
      List.append_nil, injectBoth_effects, injected_map_inject, eventPairs] <;>
    rfl

theorem processButtons_lastButtons (K : SysHeaders) (s : DaemonState) (b : Nat) :
    (daemon_processButtons K s b).1.s_lastButtons =
      b &&& (SAGA_BUTTON4_MASK ||| SAGA_BUTTON5_MASK) := by
  simp only [daemon_processButtons]
  generalize b &&& (SAGA_BUTTON4_MASK ||| SAGA_BUTTON5_MASK) = cur
  by_cases h : cur ^^^ s.s_lastButtons = 0
  · have hc : cur = s.s_lastButtons := Nat.xor_eq_zero.mp h
    simp [h, hc]
  · simp only [ne_eq, h, not_false_eq_true, if_true]

theorem processWheel_sameFrame (K : SysHeaders) (s : DaemonState) (w : Int) :
    sameFrame (daemon_processWheel K s w).1.s_eventBuf s.s_eventBuf := by
  by_cases h1 : w = s.s_lastCounter
  · simp only [daemon_processWheel, ne_eq, h1, not_true_eq_false, if_false]
    exact sameFrame_refl _
  · by_cases h2 : wheelDelta w s.s_lastCounter = 0
    · simp only [daemon_processWheel, ne_eq, h1, h2, not_false_eq_true, not_true_eq_false,
        if_true, if_false]
      exact sameFrame_refl _
    · simp only [daemon_processWheel, ne_eq, h1, h2, not_false_eq_true, if_true]
      exact sameFrame_trans (wheelLoop_sameFrame K _ _) (setCode_sameFrame _ _)

theorem gatedWheel_sameFrame (K : SysHeaders) (s : DaemonState) (hw : HwSample) :
    sameFrame (gatedWheel K s hw).1.s_eventBuf s.s_eventBuf := by
  simp only [gatedWheel]
  split_ifs
  · exact processWheel_sameFrame K s hw.wheel
  · exact sameFrame_refl _

theorem gatedWheel_frame (K : SysHeaders) (s : DaemonState) (hw : HwSample) :
    (gatedWheel K s hw).1.s_lastButtons = s.s_lastButtons ∧
    (gatedWheel K s hw).1.s_pollInterval = s.s_pollInterval ∧
    (gatedWheel K s hw).1.s_configByte = s.s_configByte := by
  simp only [gatedWheel]
  split_ifs
  · exact processWheel_frame K s hw.wheel
  · exact ⟨rfl, rfl, rfl⟩

theorem gatedWheel_injected (K : SysHeaders) (s : DaemonState) (hw : HwSample) :
    ∃ codes, injected (gatedWheel K s hw).2 = eventPairs K s.s_eventBuf codes := by
  simp only [gatedWheel]
  split_ifs
  · exact ⟨_, processWheel_injected K s hw.wheel⟩
  · exact ⟨[], rfl⟩

theorem gatedButtons_injected (K : SysHeaders) (s : DaemonState) (hw : HwSample) :
    ∃ codes, injected (gatedButtons K s hw).2 = eventPairs K s.s_eventBuf codes := by
  simp only [gatedButtons]
  split_ifs
  · exact ⟨_, processButtons_injected K s hw.buttons⟩
  · exact ⟨[], rfl⟩

theorem tick_injected (K : SysHeaders) (s : DaemonState) (hw : HwSample) :
    injected (daemon_tick K s hw).2 =
      injected (gatedWheel K (initEventBuf s hw.qualifier) hw).2 ++
      injected (gatedButtons K (gatedWheel K (initEventBuf s hw.qualifier) hw).1 hw).2 := by
  simp [daemon_tick]

theorem tick_lastButtons_of_enabled (K : SysHeaders) (s : DaemonState) (hw : HwSample)
    (hen : s.s_configByte &&& CONFIG_BUTTONS_ENABLED ≠ 0) :
    (daemon_tick K s hw).1 =
      (daemon_processButtons K (gatedWheel K (initEventBuf s hw.qualifier) hw).1 hw.buttons).1 ∧
    gatedButtons K (gatedWheel K (initEventBuf s hw.qualifier) hw).1 hw =
      daemon_processButtons K (gatedWheel K (initEventBuf s hw.qualifier) hw).1 hw.buttons := by
  have hc : (gatedWheel K (initEventBuf s hw.qualifier) hw).1.s_configByte = s.s_configByte :=
    (gatedWheel_frame K _ hw).2.2
  have hg : gatedButtons K (gatedWheel K (initEventBuf s hw.qualifier) hw).1 hw =
      daemon_processButtons K (gatedWheel K (initEventBuf s hw.qualifier) hw).1 hw.buttons := by
    simp only [gatedButtons, hc]
    rw [if_pos hen]
  refine ⟨?_, hg⟩
  simp only [daemon_tick, hg]

/-- C3: on a tick with `CONFIG_BUTTONS_ENABLED` set, whatever `s_lastButtons` holds and
whatever the button register reads, `daemon_processButtons` injects a pair for button 4 and
then a pair for button 5, each if and only if the button's bit differs between
`s_lastButtons` and the mask read; the code of a pair is the button's identifier, with
`IECODE_UP_PREFIX` or-ed in exactly when the bit is clear in the mask read; afterwards
`s_lastButtons` is the mask read, and a following tick that reads the same mask injects no
button event: all its events are those of the wheel. -/
theorem processButtons_edges (K : SysHeaders) (s : DaemonState) (hw hw2 : HwSample)
    (hen : s.s_configByte &&& CONFIG_BUTTONS_ENABLED ≠ 0)
    (hsame : hw2.buttons &&& (SAGA_BUTTON4_MASK ||| SAGA_BUTTON5_MASK) =
      hw.buttons &&& (SAGA_BUTTON4_MASK ||| SAGA_BUTTON5_MASK)) :
    injected (daemon_processButtons K
        (gatedWheel K (initEventBuf s hw.qualifier) hw).1 hw.buttons).2 =
      eventPairs K (initEventBuf s hw.qualifier).s_eventBuf
        (buttonEdgeCodes K s.s_lastButtons
          (hw.buttons &&& (SAGA_BUTTON4_MASK ||| SAGA_BUTTON5_MASK))) ∧
    injected (daemon_tick K s hw).2 =
      injected (gatedWheel K (initEventBuf s hw.qualifier) hw).2 ++
      injected (daemon_processButtons K
        (gatedWheel K (initEventBuf s hw.qualifier) hw).1 hw.buttons).2 ∧
    (daemon_tick K s hw).1.s_lastButtons =
      hw.buttons &&& (SAGA_BUTTON4_MASK ||| SAGA_BUTTON5_MASK) ∧
    injected (daemon_processButtons K
        (gatedWheel K (initEventBuf (daemon_tick K s hw).1 hw2.qualifier) hw2).1
        hw2.buttons).2 = [] ∧
    injected (daemon_tick K (daemon_tick K s hw).1 hw2).2 =
      injected (gatedWheel K (initEventBuf (daemon_tick K s hw).1 hw2.qualifier) hw2).2 := by
  obtain ⟨ht, hg⟩ := tick_lastButtons_of_enabled K s hw hen
  have hlast : (daemon_tick K s hw).1.s_lastButtons =
      hw.buttons &&& (SAGA_BUTTON4_MASK ||| SAGA_BUTTON5_MASK) := by
    rw [ht, processButtons_lastButtons]
  have hcfg : (daemon_tick K s hw).1.s_configByte = s.s_configByte := by
    rw [ht, (processButtons_frame K _ _).2.2]
    exact (gatedWheel_frame K _ hw).2.2
  have hen2 : (daemon_tick K s hw).1.s_configByte &&& CONFIG_BUTTONS_ENABLED ≠ 0 := by
    rw [hcfg]; exact hen
  obtain ⟨_, hg2⟩ := tick_lastButtons_of_enabled K (daemon_tick K s hw).1 hw2 hen2
  have hnone : injected (daemon_processButtons K
      (gatedWheel K (initEventBuf (daemon_tick K s hw).1 hw2.qualifier) hw2).1
      hw2.buttons).2 = [] := by
    rw [processButtons_injected, (gatedWheel_frame K _ hw2).1]
    have : (initEventBuf (daemon_tick K s hw).1 hw2.qualifier).s_lastButtons =
        (daemon_tick K s hw).1.s_lastButtons := rfl
    rw [this, hlast, hsame]
    simp [buttonEdgeCodes, eventPairs]
  refine ⟨?_, ?_, hlast, hnone, ?_⟩
  · rw [processButtons_injected, (gatedWheel_frame K _ hw).1,
      eventPairs_sameFrame K (gatedWheel_sameFrame K _ hw)]
    rfl
  · rw [tick_injected, hg]
  · rw [tick_injected, hg2, hnone, List.append_nil]

/-- An instance of C3, the scenario of the claim: with both bits stored as released, a
read with only the bit of button 5 set gives one pair, with code `NM_BUTTON_FIFTH` and no
up flag, and `s_lastButtons = 0x0200`; a second tick reading the same register gives no
event. -/
theorem processButtons_edges_witness :
    (({ staticState with s_configByte := 0x13 } : DaemonState).s_configByte
        &&& CONFIG_BUTTONS_ENABLED ≠ 0 ∧
      (⟨0, 0, 0x0200⟩ : HwSample).buttons &&& (SAGA_BUTTON4_MASK ||| SAGA_BUTTON5_MASK) =
        (⟨0, 0, 0x0200⟩ : HwSample).buttons &&& (SAGA_BUTTON4_MASK ||| SAGA_BUTTON5_MASK)) ∧
    injected (daemon_tick ndk { staticState with s_configByte := 0x13 } ⟨0, 0, 0x0200⟩).2 =
      [⟨0, 0x01, 0, 0x7F, 0, 0, 0, 0, 0⟩, ⟨0, 0x16, 0, 0x7F, 0, 0, 0, 0, 0⟩] ∧
    (daemon_tick ndk { staticState with s_configByte := 0x13 } ⟨0, 0, 0x0200⟩).1.s_lastButtons
      = 0x0200 ∧
    injected (daemon_tick ndk
      (daemon_tick ndk { staticState with s_configByte := 0x13 } ⟨0, 0, 0x0200⟩).1
      ⟨0, 0, 0x0200⟩).2 = [] := by
  have h := processButtons_edges ndk { staticState with s_configByte := 0x13 }
    ⟨0, 0, 0x0200⟩ ⟨0, 0, 0x0200⟩ (by decide) rfl
  refine ⟨⟨by decide, rfl⟩, ?_, ?_, ?_⟩
  · rw [h.2.1, h.1]; decide
  · rw [h.2.2.1]; decide
  · rw [h.2.2.2.2]; decide

/-! ## Pairing of the events of a tick -/

theorem eventPairs_at (K : SysHeaders) (buf : InputEvent) (codes : List Nat) (k : Nat)
    (hk : 2 * k < (eventPairs K buf codes).length) :
    ∃ code,
      (eventPairs K buf codes)[2 * k]? =
        some { buf with ie_Class := K.IECLASS_RAWKEY, ie_Code := code } ∧
      (eventPairs K buf codes)[2 * k + 1]? =
        some { buf with ie_Class := K.IECLASS_NEWMOUSE, ie_Code := code } := by
  induction codes generalizing k with
  | nil => simp [eventPairs] at hk
  | cons c cs ih =>
    cases k with
    | zero => exact ⟨c, by simp [eventPairs, eventPair], by simp [eventPairs, eventPair]⟩
    | succ k =>
      have hk2 : 2 * k < (eventPairs K buf cs).length := by
        simp only [eventPairs, eventPair, List.length_append, List.length_cons,
          List.length_nil] at hk
        omega
      obtain ⟨code, h1, h2⟩ := ih k hk2
      refine ⟨code, ?_, ?_⟩
      · have e : 2 * (k + 1) = (2 * k) + 1 + 1 := by ring
        rw [e]
        simpa [eventPairs, eventPair] using h1
      · have e : 2 * (k + 1) + 1 = (2 * k + 1) + 1 + 1 := by ring
        rw [e]
        simpa [eventPairs, eventPair] using h2

theorem eventPairs_mem (K : SysHeaders) (buf : InputEvent) (codes : List Nat)
    (ev : InputEvent) (h : ev ∈ eventPairs K buf codes) : sameFrame ev buf := by
  induction codes with
  | nil => simp [eventPairs] at h
  | cons c cs ih =>
    simp only [eventPairs, eventPair, List.mem_append, List.mem_cons, List.mem_singleton,
      List.not_mem_nil, or_false] at h
    rcases h with (h | h) | h
    · subst h; exact ⟨rfl, rfl, rfl, rfl, rfl, rfl, rfl⟩
    · subst h; exact ⟨rfl, rfl, rfl, rfl, rfl, rfl, rfl⟩
    · exact ih h

theorem tick_injected_pairs (K : SysHeaders) (s : DaemonState) (hw : HwSample) :
    ∃ codes, injected (daemon_tick K s hw).2 =
      eventPairs K (initEventBuf s hw.qualifier).s_eventBuf codes := by
  obtain ⟨c1, h1⟩ := gatedWheel_injected K (initEventBuf s hw.qualifier) hw
  obtain ⟨c2, h2⟩ := gatedButtons_injected K (gatedWheel K (initEventBuf s hw.qualifier) hw).1 hw
  refine ⟨c1 ++ c2, ?_⟩
  rw [tick_injected, h1, h2, eventPairs_append,
    eventPairs_sameFrame K (gatedWheel_sameFrame K _ hw)]

/-- C4: whatever the configuration, the stored state and the hardware read, the events
injected during one tick form a list of even length in which, for every `k`, the events at
positions `2k` and `2k+1` are an `IECLASS_RAWKEY` event followed by an `IECLASS_NEWMOUSE`
event with the same code and the same qualifier; every event of the tick carries the
qualifier captured at the start of the tick and has `ie_X`, `ie_Y` and the timestamp zero. -/
theorem tick_events_paired (K : SysHeaders) (s : DaemonState) (hw : HwSample) :
    (injected (daemon_tick K s hw).2).length % 2 = 0 ∧
    (∀ k, 2 * k < (injected (daemon_tick K s hw).2).length →
      ∃ a b, (injected (daemon_tick K s hw).2)[2 * k]? = some a ∧
        (injected (daemon_tick K s hw).2)[2 * k + 1]? = some b ∧
        a.ie_Class = K.IECLASS_RAWKEY ∧ b.ie_Class = K.IECLASS_NEWMOUSE ∧
        a.ie_Code = b.ie_Code ∧ a.ie_Qualifier = b.ie_Qualifier) ∧
    (∀ ev ∈ injected (daemon_tick K s hw).2,
      ev.ie_Qualifier = hw.qualifier ∧ ev.ie_X = 0 ∧ ev.ie_Y = 0 ∧
      ev.tv_secs = 0 ∧ ev.tv_micro = 0) := by
  obtain ⟨codes, hc⟩ := tick_injected_pairs K s hw
  rw [hc]
  refine ⟨?_, ?_, ?_⟩
  · rw [eventPairs_length]; omega
  · intro k hk
    obtain ⟨code, h1, h2⟩ := eventPairs_at K _ codes k hk
    exact ⟨_, _, h1, h2, rfl, rfl, rfl, rfl⟩
  · intro ev hev
    obtain ⟨_, _, h3, h4, h5, h6, h7⟩ := eventPairs_mem K _ codes ev hev
    exact ⟨h3, h4, h5, h6, h7⟩

/-! ## Ticks with the wheel disabled -/

theorem processButtons_effects (K : SysHeaders) (s : DaemonState) (b : Nat) :
    (daemon_processButtons K s b).2 =
      Effect.readButtons b :: (eventPairs K s.s_eventBuf
        (buttonEdgeCodes K s.s_lastButtons
          (b &&& (SAGA_BUTTON4_MASK ||| SAGA_BUTTON5_MASK)))).map Effect.inject := by
  simp only [daemon_processButtons, buttonEdgeCodes]
  generalize b &&& (SAGA_BUTTON4_MASK ||| SAGA_BUTTON5_MASK) = cur
  by_cases h : cur ^^^ s.s_lastButtons = 0
  · have hc : cur = s.s_lastButtons := Nat.xor_eq_zero.mp h
    simp [h, hc, eventPairs]
  · simp only [ne_eq, h, not_false_eq_true, if_true]
    have e4 := bit_changed_iff cur s.s_lastButtons SAGA_BUTTON4_MASK
    have e5 := bit_changed_iff cur s.s_lastButtons SAGA_BUTTON5_MASK
    simp only [ne_eq] at e4 e5
    by_cases h4 : (cur ^^^ s.s_lastButtons) &&& SAGA_BUTTON4_MASK = 0 <;>
    by_cases h5 : (cur ^^^ s.s_lastButtons) &&& SAGA_BUTTON5_MASK = 0 <;>
    simp only [h4, h5, ← e4, ← e5, not_true_eq_false, not_false_eq_true, if_true, if_false,
      List.nil_append, List.append_nil, injectBoth_effects, eventPairs, List.map_append,
      List.singleton_append, List.map_nil, List.append_assoc, List.cons_append] <;>
    rfl

theorem eventPairs_mem_code (K : SysHeaders) (buf : InputEvent) (codes : List Nat)
    (ev : InputEvent) (h : ev ∈ eventPairs K buf codes) : ev.ie_Code ∈ codes := by
  induction codes with
  | nil => simp [eventPairs] at h
  | cons c cs ih =>
    simp only [eventPairs, eventPair, List.mem_append, List.mem_cons, List.mem_singleton,
      List.not_mem_nil, or_false] at h
    rcases h with (h | h) | h
    · subst h; exact List.mem_cons_self _ _
    · subst h; exact List.mem_cons_self _ _
    · exact List.mem_cons_of_mem _ (ih h)

theorem buttonEdgeCodes_subset (K : SysHeaders) (last cur c : Nat)
    (h : c ∈ buttonEdgeCodes K last cur) : c ∈ buttonCodes K := by
  simp only [buttonEdgeCodes, List.mem_append] at h
  simp only [buttonCodes, List.mem_cons, List.mem_singleton, List.not_mem_nil, or_false]
  rcases h with h | h
  · split_ifs at h <;> simp_all
  · split_ifs at h <;> simp_all

theorem tick_frame (K : SysHeaders) (s : DaemonState) (hw : HwSample) :
    (daemon_tick K s hw).1.s_pollInterval = s.s_pollInterval ∧
    (daemon_tick K s hw).1.s_configByte = s.s_configByte := by
  simp only [daemon_tick]
  constructor
  · rw [(gatedButtons_frame K _ hw).2.1, (gatedWheel_frame K _ hw).2.1]; rfl
  · rw [(gatedButtons_frame K _ hw).2.2, (gatedWheel_frame K _ hw).2.2]; rfl

theorem gatedWheel_off (K : SysHeaders) (s : DaemonState) (hw : HwSample)
    (hoff : s.s_configByte &&& CONFIG_WHEEL_ENABLED = 0) : gatedWheel K s hw = (s, []) := by
  simp [gatedWheel, hoff]

theorem gatedButtons_effects (K : SysHeaders) (s : DaemonState) (hw : HwSample) :
    ∃ codes, (∀ c ∈ codes, c ∈ buttonCodes K) ∧
      ((gatedButtons K s hw).2 = [] ∨
       (gatedButtons K s hw).2 =
        Effect.readButtons hw.buttons :: (eventPairs K s.s_eventBuf codes).map Effect.inject) := by
  simp only [gatedButtons]
  split_ifs
  · exact ⟨_, fun c hc => buttonEdgeCodes_subset K _ _ c hc,
      Or.inr (processButtons_effects K s hw.buttons)⟩
  · exact ⟨[], by simp, Or.inl rfl⟩

theorem tick_wheel_off (K : SysHeaders) (s : DaemonState) (hw : HwSample)
    (hoff : s.s_configByte &&& CONFIG_WHEEL_ENABLED = 0) :
    (daemon_tick K s hw).1.s_lastCounter = s.s_lastCounter ∧
    (∀ v, Effect.readWheel v ∉ (daemon_tick K s hw).2) ∧
    (∀ ev ∈ injected (daemon_tick K s hw).2, ev.ie_Code ∈ buttonCodes K) := by
  have hg : gatedWheel K (initEventBuf s hw.qualifier) hw = (initEventBuf s hw.qualifier, []) :=
    gatedWheel_off K _ hw hoff
  obtain ⟨codes, hsub, heff⟩ := gatedButtons_effects K (initEventBuf s hw.qualifier) hw
  refine ⟨?_, ?_, ?_⟩
  · simp only [daemon_tick, hg]
    rw [(gatedButtons_frame K _ hw).1]; rfl
  · intro v
    simp only [daemon_tick, hg, TIMER_START]
    rcases heff with h | h <;> simp [h]
  · intro ev hev
    simp only [daemon_tick, hg, injected_append, injected_TIMER_START] at hev
    rcases heff with h | h
    · simp [h] at hev
    · simp only [h, injected_cons_peekQualifier, injected_cons_readButtons, injected_nil,
        injected_map_inject, List.append_nil, List.nil_append, List.singleton_append] at hev
      exact hsub _ (eventPairs_mem_code K _ codes ev hev)

/-- C5: for every number of consecutive ticks during which bit `CONFIG_WHEEL_ENABLED` of
the configuration byte is clear, whatever the hardware reads in each of them, the wheel
counter is not read, every injected event carries a button code (so none carries
`NM_WHEEL_UP` or `NM_WHEEL_DOWN`, these being different from the button codes), and
`s_lastCounter` after the ticks is what it was before them. -/
theorem wheel_disabled_ticks (K : SysHeaders) (s : DaemonState) (hws : List HwSample)
    (hoff : s.s_configByte &&& CONFIG_WHEEL_ENABLED = 0) :
    (runTicks K hws s).1.s_lastCounter = s.s_lastCounter ∧
    (∀ v, Effect.readWheel v ∉ (runTicks K hws s).2) ∧
    (∀ ev ∈ injected (runTicks K hws s).2, ev.ie_Code ∈ buttonCodes K) ∧
    (K.NM_WHEEL_UP ∉ buttonCodes K → K.NM_WHEEL_DOWN ∉ buttonCodes K →
      ∀ ev ∈ injected (runTicks K hws s).2,
        ev.ie_Code ≠ K.NM_WHEEL_UP ∧ ev.ie_Code ≠ K.NM_WHEEL_DOWN) := by
  have main : (runTicks K hws s).1.s_lastCounter = s.s_lastCounter ∧
      (∀ v, Effect.readWheel v ∉ (runTicks K hws s).2) ∧
      (∀ ev ∈ injected (runTicks K hws s).2, ev.ie_Code ∈ buttonCodes K) := by
    induction hws generalizing s with
    | nil => simp [runTicks]
    | cons hw rest ih =>
      obtain ⟨t1, t2, t3⟩ := tick_wheel_off K s hw hoff
      have hoff2 : (daemon_tick K s hw).1.s_configByte &&& CONFIG_WHEEL_ENABLED = 0 := by
        rw [(tick_frame K s hw).2]; exact hoff
      obtain ⟨r1, r2, r3⟩ := ih (daemon_tick K s hw).1 hoff2
      simp only [runTicks]
      refine ⟨by rw [r1, t1], ?_, ?_⟩
      · intro v hv
        rcases List.mem_append.mp hv with h | h
        · exact t2 v h
        · exact r2 v h
      · intro ev hev
        rw [injected_append] at hev
        rcases List.mem_append.mp hev with h | h
        · exact t3 ev h
        · exact r3 ev h
  obtain ⟨m1, m2, m3⟩ := main
  refine ⟨m1, m2, m3, ?_⟩
  intro hu hd ev hev
  have := m3 ev hev
  constructor
  · intro he; rw [he] at this; exact hu this
  · intro he; rw [he] at this; exact hd this

/-- An instance of C5: with the configuration byte `0x12` (buttons on, wheel off) and
`s_lastCounter = 0`, three ticks in which the wheel counter reads 5, 9 and -3 leave
`s_lastCounter = 0` and inject nothing but the events of button 4 going down. -/
theorem wheel_disabled_ticks_witness :
    ({ staticState with s_configByte := 0x12 } : DaemonState).s_configByte
      &&& CONFIG_WHEEL_ENABLED = 0 ∧
    (runTicks ndk [⟨0, 5, 0⟩, ⟨0, 9, 0x0100⟩, ⟨0, -3, 0x0100⟩]
      { staticState with s_configByte := 0x12 }).1.s_lastCounter = 0 ∧
    (∀ ev ∈ injected (runTicks ndk [⟨0, 5, 0⟩, ⟨0, 9, 0x0100⟩, ⟨0, -3, 0x0100⟩]
        { staticState with s_configByte := 0x12 }).2,
      ev.ie_Code ≠ ndk.NM_WHEEL_UP ∧ ev.ie_Code ≠ ndk.NM_WHEEL_DOWN) ∧
    injected (runTicks ndk [⟨0, 5, 0⟩, ⟨0, 9, 0x0100⟩, ⟨0, -3, 0x0100⟩]
        { staticState with s_configByte := 0x12 }).2 =
      [⟨0, 0x01, 0, 0x7E, 0, 0, 0, 0, 0⟩, ⟨0, 0x16, 0, 0x7E, 0, 0, 0, 0, 0⟩] := by
  have h := wheel_disabled_ticks ndk { staticState with s_configByte := 0x12 }
    [⟨0, 5, 0⟩, ⟨0, 9, 0x0100⟩, ⟨0, -3, 0x0100⟩] (by decide)
  exact ⟨by decide, h.1, h.2.2.2 (by decide) (by decide), by decide⟩

/-! ## Replies -/

theorem portOps_append (a b : List Effect) : portOps (a ++ b) = portOps a ++ portOps b := by
  simp [portOps]

theorem portOps_eq_nil (es : List Effect) (h : ∀ e ∈ es, isPortOp e = false) :
    portOps es = [] := by
  simp only [portOps, List.filter_eq_nil_iff]
  intro e he
  simp [h e he]

theorem portOps_map_inject (l : List InputEvent) : portOps (l.map Effect.inject) = [] := by
  apply portOps_eq_nil
  intro e he
  obtain ⟨ev, _, rfl⟩ := List.mem_map.mp he
  rfl

theorem portOps_replied_length (l : List (XMouseMsg × Nat)) :
    (replied (replyTrace l)).length = l.length := by
  induction l with
  | nil => rfl
  | cons p rest ih => obtain ⟨m, r⟩ := p; simp [replyTrace, replied, ih]

theorem replied_eq_of_portOps (es : List Effect) : replied (portOps es) = replied es := by
  induction es with
  | nil => rfl
  | cons e es ih =>
    cases e <;> simp_all [portOps, replied, List.filter_cons, isPortOp]

theorem processWheel_effects (K : SysHeaders) (s : DaemonState) (w : Int) :
    (daemon_processWheel K s w).2 =
      Effect.readWheel w :: (eventPairs K s.s_eventBuf
        (List.replicate (wheelDelta w s.s_lastCounter).natAbs
          (if wheelDelta w s.s_lastCounter > 0 then K.NM_WHEEL_UP
           else K.NM_WHEEL_DOWN))).map Effect.inject := by
  by_cases h1 : w = s.s_lastCounter
  · simp [daemon_processWheel, h1, wheelDelta_self, eventPairs]
  · by_cases h2 : wheelDelta w s.s_lastCounter = 0
    · simp [daemon_processWheel, h1, h2, eventPairs]
    · have hc : (if wheelDelta w s.s_lastCounter > 0 then wheelDelta w s.s_lastCounter
          else -wheelDelta w s.s_lastCounter).toNat = (wheelDelta w s.s_lastCounter).natAbs := by
        split_ifs <;> omega
      simp only [daemon_processWheel, ne_eq, h1, h2, not_false_eq_true, if_true,
        wheelLoop_effects, hc, List.singleton_append]
      rw [eventPairs_sameFrame K (setCode_sameFrame _ _)]
      rfl

theorem tick_portOps (K : SysHeaders) (s : DaemonState) (hw : HwSample) :
    portOps (daemon_tick K s hw).2 = [] := by
  have hwheel : portOps (gatedWheel K (initEventBuf s hw.qualifier) hw).2 = [] := by
    simp only [gatedWheel]
    split_ifs
    · rw [processWheel_effects, ← List.singleton_append, portOps_append, portOps_map_inject]
      rfl
    · rfl
  have hbut : portOps
      (gatedButtons K (gatedWheel K (initEventBuf s hw.qualifier) hw).1 hw).2 = [] := by
    simp only [gatedButtons]
    split_ifs
    · rw [processButtons_effects, ← List.singleton_append, portOps_append, portOps_map_inject]
      rfl
    · rfl
  simp only [daemon_tick, portOps_append, hwheel, hbut]
  rfl

theorem handleMsg_portOps (s : DaemonState) (quit : Bool) (m : XMouseMsg) :
    portOps (handleMsg s quit m).effects = [] := by
  simp only [handleMsg]
  split_ifs <;> rfl

theorem handleMsg_reply (s : DaemonState) (quit : Bool) (m : XMouseMsg) :
    (handleMsg s quit m).reply = { m with result := (handleMsg s quit m).reply.result } := by
  simp only [handleMsg]
  split_ifs <;> rfl

theorem drain_portOps (queue : List XMouseMsg) (s : DaemonState) (quit : Bool) :
    ∃ results : List Nat, results.length = queue.length ∧
      portOps (drain queue s quit).2.2 = replyTrace (queue.zip results) := by
  induction queue generalizing s quit with
  | nil => exact ⟨[], rfl, rfl⟩
  | cons m rest ih =>
    obtain ⟨rs, hlen, htr⟩ := ih (handleMsg s quit m).state (handleMsg s quit m).quit
    refine ⟨(handleMsg s quit m).reply.result :: rs, by simp [hlen], ?_⟩
    simp only [drain, portOps_append, handleMsg_portOps, htr, List.zip_cons_cons, replyTrace,
      List.append_nil]
    rw [← handleMsg_reply]
    rfl

/-- C6: for every list of control messages queued on the public port, whatever their
command bytes and values, the loop iteration that handles the port signal (it is set and
Ctrl-C is not) performs on the port exactly this: each message in queue order is dequeued
and replied to, with its command and value unchanged and a result filled in, before the
next one is dequeued; so there are exactly as many replies as messages. -/
theorem iteration_replies (K : SysHeaders) (timerSig portSig : Nat) (s : DaemonState)
    (quit : Bool) (w : Wake)
    (hc : w.signals &&& K.SIGBREAKF_CTRL_C = 0) (hp : w.signals &&& portSig ≠ 0) :
    ∃ results : List Nat, results.length = w.queue.length ∧
      portOps (daemon_iteration K timerSig portSig s quit w).effects =
        replyTrace (w.queue.zip results) ∧
      (replied (daemon_iteration K timerSig portSig s quit w).effects).length =
        w.queue.length := by
  obtain ⟨rs, hlen, htr⟩ := drain_portOps w.queue s quit
  have hops : portOps (daemon_iteration K timerSig portSig s quit w).effects =
      replyTrace (w.queue.zip rs) := by
    simp only [daemon_iteration, hc, ne_eq, not_true_eq_false, if_false, hp, not_false_eq_true,
      if_true, true_and]
    split_ifs
    · exact htr
    · simp only [portOps_append, htr]; exact List.append_nil _
    · simp only [portOps_append, htr, tick_portOps, List.append_nil]
  refine ⟨rs, hlen, hops, ?_⟩
  rw [← replied_eq_of_portOps, hops, portOps_replied_length, List.length_zip, hlen,
    Nat.min_self]

/-- An instance of C6: three queued messages (`GetStatus`, `SetInterval(7000)` and the
unknown command 9) are dequeued and replied to one after the other, in queue order. -/
theorem iteration_replies_witness :
    (0x20000 &&& ndk.SIGBREAKF_CTRL_C = 0 ∧ 0x20000 &&& 0x20000 ≠ 0) ∧
    (∃ results : List Nat, results.length = 3 ∧
      portOps (daemon_iteration ndk 0x10000 0x20000 (daemon_Init_state staticState ⟨0, 0, 0⟩)
        false ⟨0x20000, [⟨3, 0, 0⟩, ⟨2, 7000, 0⟩, ⟨9, 5, 0⟩], ⟨0, 0, 0⟩⟩).effects =
        replyTrace (List.zip [⟨3, 0, 0⟩, ⟨2, 7000, 0⟩, ⟨9, 5, 0⟩] results) ∧
      (replied (daemon_iteration ndk 0x10000 0x20000 (daemon_Init_state staticState ⟨0, 0, 0⟩)
        false ⟨0x20000, [⟨3, 0, 0⟩, ⟨2, 7000, 0⟩, ⟨9, 5, 0⟩], ⟨0, 0, 0⟩⟩).effects).length = 3) ∧
    portOps (daemon_iteration ndk 0x10000 0x20000 (daemon_Init_state staticState ⟨0, 0, 0⟩)
        false ⟨0x20000, [⟨3, 0, 0⟩, ⟨2, 7000, 0⟩, ⟨9, 5, 0⟩], ⟨0, 0, 0⟩⟩).effects =
      [Effect.getMsg ⟨3, 0, 0⟩, Effect.replyMsg ⟨3, 0, 0x13000A⟩,
       Effect.getMsg ⟨2, 7000, 0⟩, Effect.replyMsg ⟨2, 7000, 7000⟩,
       Effect.getMsg ⟨9, 5, 0⟩, Effect.replyMsg ⟨9, 5, 0xFFFFFFFF⟩] :=
  ⟨⟨by decide, by decide⟩,
   iteration_replies ndk 0x10000 0x20000 (daemon_Init_state staticState ⟨0, 0, 0⟩) false
     ⟨0x20000, [⟨3, 0, 0⟩, ⟨2, 7000, 0⟩, ⟨9, 5, 0⟩], ⟨0, 0, 0⟩⟩ (by decide) (by decide),
   by decide⟩

/-! ## Control messages -/

theorem handleMsg_quit (s : DaemonState) (quit : Bool) (v r : Nat) :
    handleMsg s quit ⟨XMSG_CMD_QUIT, v, r⟩ = ⟨s, true, ⟨XMSG_CMD_QUIT, v, 0⟩, []⟩ := by
  simp [handleMsg]

theorem handleMsg_setConfig (s : DaemonState) (quit : Bool) (v r : Nat) :
    handleMsg s quit ⟨XMSG_CMD_SET_CONFIG, v, r⟩ =
      if intervalIndex s.s_configByte ≠ intervalIndex (v % 256) then
        ⟨{ s with s_configByte := v % 256,
                  s_pollInterval := s_pollIntervals.getD (intervalIndex (v % 256)) 0 },
         quit, ⟨XMSG_CMD_SET_CONFIG, v, v % 256⟩,
         [Effect.timerAbort, Effect.timerWait,
          Effect.timerStart (s_pollIntervals.getD (intervalIndex (v % 256)) 0 / 1000000)
            (s_pollIntervals.getD (intervalIndex (v % 256)) 0 % 1000000)]⟩
      else ⟨{ s with s_configByte := v % 256 }, quit, ⟨XMSG_CMD_SET_CONFIG, v, v % 256⟩, []⟩ := by
  simp only [handleMsg, XMSG_CMD_SET_CONFIG, XMSG_CMD_QUIT]
  split_ifs <;> first | rfl | simp_all

theorem handleMsg_setInterval (s : DaemonState) (quit : Bool) (v r : Nat) :
    handleMsg s quit ⟨XMSG_CMD_SET_INTERVAL, v, r⟩ =
      ⟨{ s with s_pollInterval := v }, quit, ⟨XMSG_CMD_SET_INTERVAL, v, v⟩,
       [Effect.timerAbort, Effect.timerWait,
        Effect.timerStart (v / 1000000) (v % 1000000)]⟩ := by
  simp [handleMsg, XMSG_CMD_SET_INTERVAL, XMSG_CMD_SET_CONFIG, XMSG_CMD_QUIT, TIMER_START]

theorem handleMsg_getStatus (s : DaemonState) (quit : Bool) (v r : Nat) :
    handleMsg s quit ⟨XMSG_CMD_GET_STATUS, v, r⟩ =
      ⟨s, quit,
       ⟨XMSG_CMD_GET_STATUS, v, (s.s_configByte <<< 16) ||| (s.s_pollInterval / 1000)⟩, []⟩ := by
  simp [handleMsg, XMSG_CMD_GET_STATUS, XMSG_CMD_SET_INTERVAL, XMSG_CMD_SET_CONFIG,
    XMSG_CMD_QUIT]

theorem handleMsg_unknown (s : DaemonState) (quit : Bool) (m : XMouseMsg)
    (h : 4 ≤ m.command) :
    handleMsg s quit m = ⟨s, quit, { m with result := 0xFFFFFFFF }, []⟩ := by
  have h0 : m.command ≠ XMSG_CMD_QUIT := by simp only [XMSG_CMD_QUIT]; omega
  have h1 : m.command ≠ XMSG_CMD_SET_CONFIG := by simp only [XMSG_CMD_SET_CONFIG]; omega
  have h2 : m.command ≠ XMSG_CMD_SET_INTERVAL := by simp only [XMSG_CMD_SET_INTERVAL]; omega
  have h3 : m.command ≠ XMSG_CMD_GET_STATUS := by simp only [XMSG_CMD_GET_STATUS]; omega
  simp [handleMsg, h0, h1, h2, h3]

theorem intervalIndex_lt (c : Nat) : intervalIndex c < 4 := by
  have h : c &&& CONFIG_INTERVAL_MASK ≤ 0x30 := Nat.and_le_right
  simp only [intervalIndex, CONFIG_INTERVAL_SHIFT, Nat.shiftRight_eq_div_pow]
  omega

theorem intervalIndex_mod (v : Nat) : intervalIndex (v % 256) = intervalIndex v := by
  have h : v % 256 = v &&& (2 ^ 8 - 1) := (Nat.and_pow_two_sub_one_eq_mod v 8).symm
  simp only [intervalIndex, h, CONFIG_INTERVAL_MASK, Nat.and_assoc]
  rfl

theorem pollInterval_entry_pos (i : Nat) (h : i < 4) : s_pollIntervals.getD i 0 ≠ 0 := by
  interval_cases i <;> decide

theorem pollInterval_entry_millis (i : Nat) : s_pollIntervals.getD i 0 / 1000 < 65536 := by
  by_cases h : i < 4
  · interval_cases i <;> decide
  · have hlen : s_pollIntervals.length ≤ i := by simp [s_pollIntervals]; omega
    rw [List.getD_eq_default _ _ hlen]
    decide

theorem statusIntervalMillis_pack (c x : Nat) (hx : x < 65536) :
    statusIntervalMillis ((c <<< 16) ||| x) = x := by
  have h : 2 ^ 16 * c + x = 2 ^ 16 * c ||| x := Nat.mul_add_lt_is_or (by omega) c
  rw [statusIntervalMillis, Nat.shiftLeft_eq, Nat.mul_comm, ← h]
  omega

theorem reachable_interval_of_table (K : SysHeaders) (s : DaemonState)
    (h : Reachable K (fun m => m.command ≠ XMSG_CMD_SET_INTERVAL) s) :
    s.s_pollInterval = s_pollIntervals.getD (intervalIndex s.s_configByte) 0 := by
  induction h with
  | start hw => rfl
  | startHex hi lo s0 hw _ _ hs0 =>
    simp only [parseArguments_hex] at hs0
    split_ifs at hs0 with hstop
    injection hs0 with hs0
    subst hs0
    have hne : ((hi <<< 4) ||| lo) % 256 ≠ 0 := by
      intro h0; rw [h0] at hstop; exact hstop rfl
    have hpos := pollInterval_entry_pos _ (intervalIndex_lt (((hi <<< 4) ||| lo) % 256))
    simp [daemon_Init_state, staticState, hne, hpos]
  | msg s quit m _ hm ih =>
    simp only [handleMsg]
    split_ifs with h0 h1 hch
    · exact ih
    · rfl
    · simp only [ne_eq, not_not] at hch
      show s.s_pollInterval = s_pollIntervals.getD (intervalIndex (m.value % 256)) 0
      rw [← hch]; exact ih
    · exact ih
    · exact ih
  | tick s hw _ ih =>
    rw [(tick_frame K s hw).1, (tick_frame K s hw).2]; exact ih

/-- C7 as stated fails: after a successful start with the default configuration `0x13`
and a `SetInterval(7000)`, the state is reachable by control messages, yet `SetConfig(0x13)`
followed by `GetStatus` reports 7 ms, while the table entry for the selector of `0x13`
is 10 ms. -/
theorem setConfig_keeps_direct_interval :
    Reachable ndk (fun _ => True)
      (handleMsg (daemon_Init_state staticState ⟨0, 0, 0⟩) false
        ⟨XMSG_CMD_SET_INTERVAL, 7000, 0⟩).state ∧
    statusIntervalMillis
      (handleMsg
        (handleMsg
          (handleMsg (daemon_Init_state staticState ⟨0, 0, 0⟩) false
            ⟨XMSG_CMD_SET_INTERVAL, 7000, 0⟩).state
          false ⟨XMSG_CMD_SET_CONFIG, 0x13, 0⟩).state
        false ⟨XMSG_CMD_GET_STATUS, 0, 0⟩).reply.result = 7 ∧
    s_pollIntervals.getD (intervalIndex 0x13) 0 / 1000 = 10 :=
  ⟨Reachable.msg _ false _ (Reachable.start ⟨0, 0, 0⟩) trivial, by decide, by decide⟩

/-- C7, amended: for every byte `b` the selector `(b & 0x30) >> 4` is an index into the
four-entry interval table; and in every daemon state in which `b` has another selector than
the current configuration byte, or which is reachable from a successful start by ticks and
by control messages none of which is `SetInterval`, processing `SetConfig(b)` followed by
`GetStatus` makes `GetStatus` report the table entry for the selector of `b`, in
milliseconds. -/
theorem setConfig_getStatus_interval (K : SysHeaders) (s : DaemonState) (q1 q2 : Bool)
    (b v r0 r1 : Nat) (hb : b < 256)
    (h : intervalIndex b ≠ intervalIndex s.s_configByte ∨
      Reachable K (fun m => m.command ≠ XMSG_CMD_SET_INTERVAL) s) :
    intervalIndex b < s_pollIntervals.length ∧
    statusIntervalMillis
      (handleMsg (handleMsg s q1 ⟨XMSG_CMD_SET_CONFIG, b, r0⟩).state q2
        ⟨XMSG_CMD_GET_STATUS, v, r1⟩).reply.result =
      s_pollIntervals.getD (intervalIndex b) 0 / 1000 := by
  refine ⟨intervalIndex_lt b, ?_⟩
  have hmod : b % 256 = b := Nat.mod_eq_of_lt hb
  have hint : (handleMsg s q1 ⟨XMSG_CMD_SET_CONFIG, b, r0⟩).state.s_pollInterval =
      s_pollIntervals.getD (intervalIndex b) 0 := by
    rw [handleMsg_setConfig, hmod]
    split_ifs with hch
    · rfl
    · simp only [ne_eq, not_not] at hch
      rcases h with h | h
      · exact absurd hch.symm h
      · show s.s_pollInterval = _
        rw [reachable_interval_of_table K s h, hch]
  rw [handleMsg_getStatus, hint]
  exact statusIntervalMillis_pack _ _ (pollInterval_entry_millis _)

/-- An instance of C7, amended: after a start with the default configuration (selector 1),
`SetConfig(0x23)` followed by `GetStatus` reports 20 ms, the table entry of selector 2. -/
theorem setConfig_getStatus_interval_witness :
    ((0x23 : Nat) < 256 ∧
      (intervalIndex 0x23 ≠ intervalIndex (daemon_Init_state staticState ⟨0, 0, 0⟩).s_configByte ∨
       Reachable ndk (fun m => m.command ≠ XMSG_CMD_SET_INTERVAL)
        (daemon_Init_state staticState ⟨0, 0, 0⟩))) ∧
    (intervalIndex 0x23 < s_pollIntervals.length ∧
      statusIntervalMillis
        (handleMsg (handleMsg (daemon_Init_state staticState ⟨0, 0, 0⟩) false
            ⟨XMSG_CMD_SET_CONFIG, 0x23, 0⟩).state false
          ⟨XMSG_CMD_GET_STATUS, 0, 0⟩).reply.result =
        s_pollIntervals.getD (intervalIndex 0x23) 0 / 1000) ∧
    s_pollIntervals.getD (intervalIndex 0x23) 0 / 1000 = 20 :=
  ⟨⟨by decide, Or.inr (Reachable.start ⟨0, 0, 0⟩)⟩,
   setConfig_getStatus_interval ndk (daemon_Init_state staticState ⟨0, 0, 0⟩) false false
     0x23 0 0 0 (by decide) (Or.inr (Reachable.start ⟨0, 0, 0⟩)),
   by decide⟩

/-- C8: in every daemon state and for every message value, `GetStatus` sets the result to
`(s_configByte << 16) | (s_pollInterval / 1000)`, a 32-bit word when the configuration is a
byte and the interval a 32-bit value; the globals (configuration byte, poll interval,
`s_lastCounter`, `s_lastButtons`, event buffer) and `quit` are unchanged, and no timer
operation is issued. -/
theorem getStatus_pure (s : DaemonState) (quit : Bool) (v r : Nat) :
    (handleMsg s quit ⟨XMSG_CMD_GET_STATUS, v, r⟩).reply =
      ⟨XMSG_CMD_GET_STATUS, v, (s.s_configByte <<< 16) ||| (s.s_pollInterval / 1000)⟩ ∧
    (handleMsg s quit ⟨XMSG_CMD_GET_STATUS, v, r⟩).state = s ∧
    (handleMsg s quit ⟨XMSG_CMD_GET_STATUS, v, r⟩).effects = [] ∧
    (handleMsg s quit ⟨XMSG_CMD_GET_STATUS, v, r⟩).quit = quit ∧
    (s.s_configByte < 256 → s.s_pollInterval < 2 ^ 32 →
      (handleMsg s quit ⟨XMSG_CMD_GET_STATUS, v, r⟩).reply.result < 2 ^ 32) := by
  rw [handleMsg_getStatus]
  refine ⟨rfl, rfl, rfl, rfl, ?_⟩
  intro hc hi
  apply Nat.or_lt_two_pow
  · rw [Nat.shiftLeft_eq]; omega
  · omega

/-- C9: in every daemon state, a message whose command byte is 4 or more (not `Quit`,
`SetConfig`, `SetInterval` or `GetStatus`), whatever its value, is replied to with
`0xFFFFFFFF`; the globals are unchanged, no timer operation is issued, `quit` keeps its
value, and the loop iteration that handles the message does not leave the loop. -/
theorem unknown_command_error (K : SysHeaders) (timerSig portSig : Nat) (s : DaemonState)
    (quit : Bool) (m : XMouseMsg) (hcmd : 4 ≤ m.command) :
    (handleMsg s quit m).reply = { m with result := 0xFFFFFFFF } ∧
    (handleMsg s quit m).state = s ∧
    (handleMsg s quit m).effects = [] ∧
    (handleMsg s quit m).quit = quit ∧
    (∀ (signals : Nat) (hw : HwSample), signals &&& K.SIGBREAKF_CTRL_C = 0 →
      (daemon_iteration K timerSig portSig s false ⟨signals, [m], hw⟩).broke = false) := by
  rw [handleMsg_unknown s quit m hcmd]
  refine ⟨rfl, rfl, rfl, rfl, ?_⟩
  intro signals hw hc
  simp only [daemon_iteration, hc, ne_eq, not_true_eq_false, if_false, drain,
    handleMsg_unknown s false m hcmd]
  split_ifs <;> simp_all

/-- An instance of C9: the command bytes 4 and 255 are answered with `0xFFFFFFFF`. -/
theorem unknown_command_error_witness :
    (4 ≤ (⟨255, 77, 0⟩ : XMouseMsg).command) ∧
    (handleMsg (daemon_Init_state staticState ⟨0, 0, 0⟩) false ⟨255, 77, 0⟩).reply =
      ⟨255, 77, 0xFFFFFFFF⟩ ∧
    (handleMsg (daemon_Init_state staticState ⟨0, 0, 0⟩) false ⟨4, 1, 0⟩).reply =
      ⟨4, 1, 0xFFFFFFFF⟩ :=
  ⟨by decide,
   (unknown_command_error ndk 0x10000 0x20000 (daemon_Init_state staticState ⟨0, 0, 0⟩) false
     ⟨255, 77, 0⟩ (by decide)).1,
   by decide⟩

/-- C10: in every daemon state and for every value `v`, `SetInterval(v)` sets the poll
interval to `v` itself, replies with `v`, leaves every other global (configuration byte,
`s_lastCounter`, `s_lastButtons`, event buffer) and `quit` unchanged, and aborts, awaits and
re-issues the timer request, for `v / 1000000` seconds and `v % 1000000` microseconds. -/
theorem setInterval_direct (s : DaemonState) (quit : Bool) (v r : Nat) :
    (handleMsg s quit ⟨XMSG_CMD_SET_INTERVAL, v, r⟩).state = { s with s_pollInterval := v } ∧
    (handleMsg s quit ⟨XMSG_CMD_SET_INTERVAL, v, r⟩).state.s_pollInterval = v ∧
    (handleMsg s quit ⟨XMSG_CMD_SET_INTERVAL, v, r⟩).reply = ⟨XMSG_CMD_SET_INTERVAL, v, v⟩ ∧
    (handleMsg s quit ⟨XMSG_CMD_SET_INTERVAL, v, r⟩).state.s_configByte = s.s_configByte ∧
    (handleMsg s quit ⟨XMSG_CMD_SET_INTERVAL, v, r⟩).state.s_lastCounter = s.s_lastCounter ∧
    (handleMsg s quit ⟨XMSG_CMD_SET_INTERVAL, v, r⟩).state.s_lastButtons = s.s_lastButtons ∧
    (handleMsg s quit ⟨XMSG_CMD_SET_INTERVAL, v, r⟩).quit = quit ∧
    (handleMsg s quit ⟨XMSG_CMD_SET_INTERVAL, v, r⟩).effects =
      [Effect.timerAbort, Effect.timerWait,
       Effect.timerStart (v / 1000000) (v % 1000000)] := by
  rw [handleMsg_setInterval]
  exact ⟨rfl, rfl, rfl, rfl, rfl, rfl, rfl, rfl⟩

/-! ## Quit -/

theorem handleMsg_quit_flag (s : DaemonState) (a b : Bool) (m : XMouseMsg) :
    (handleMsg s a m).state = (handleMsg s b m).state ∧
    (handleMsg s a m).reply = (handleMsg s b m).reply ∧
    (handleMsg s a m).effects = (handleMsg s b m).effects := by
  simp only [handleMsg]
  split_ifs <;> exact ⟨rfl, rfl, rfl⟩

theorem drain_quit_flag (queue : List XMouseMsg) (s : DaemonState) (a b : Bool) :
    (drain queue s a).1 = (drain queue s b).1 ∧
    (drain queue s a).2.2 = (drain queue s b).2.2 := by
  induction queue generalizing s a b with
  | nil => exact ⟨rfl, rfl⟩
  | cons m rest ih =>
    obtain ⟨h1, h2, h3⟩ := handleMsg_quit_flag s a b m
    simp only [drain, h1, h2, h3]
    obtain ⟨i1, i2⟩ := ih (handleMsg s b m).state (handleMsg s a m).quit (handleMsg s b m).quit
    exact ⟨i1, by rw [i2]⟩

theorem handleMsg_quit_stays (s : DaemonState) (m : XMouseMsg) :
    (handleMsg s true m).quit = true := by
  simp only [handleMsg]
  split_ifs <;> rfl

theorem drain_quit_stays (queue : List XMouseMsg) (s : DaemonState) :
    (drain queue s true).2.1 = true := by
  induction queue generalizing s with
  | nil => rfl
  | cons m rest ih =>
    simp only [drain, handleMsg_quit_stays]
    exact ih _

theorem drain_append (xs ys : List XMouseMsg) (s : DaemonState) (quit : Bool) :
    drain (xs ++ ys) s quit =
      ((drain ys (drain xs s quit).1 (drain xs s quit).2.1).1,
       (drain ys (drain xs s quit).1 (drain xs s quit).2.1).2.1,
       (drain xs s quit).2.2 ++ (drain ys (drain xs s quit).1 (drain xs s quit).2.1).2.2) := by
  induction xs generalizing s quit with
  | nil => rfl
  | cons m rest ih =>
    rw [List.cons_append]
    simp only [drain]
    rw [ih]
    simp

theorem replied_append (a b : List Effect) : replied (a ++ b) = replied a ++ replied b := by
  induction a with
  | nil => rfl
  | cons e es ih => cases e <;> simp [replied, ih]

theorem drain_replied_length (queue : List XMouseMsg) (s : DaemonState) (quit : Bool) :
    (replied (drain queue s quit).2.2).length = queue.length := by
  obtain ⟨rs, hlen, htr⟩ := drain_portOps queue s quit
  rw [← replied_eq_of_portOps, htr, portOps_replied_length, List.length_zip, hlen,
    Nat.min_self]

theorem drain_with_quit (pre post : List XMouseMsg) (s : DaemonState) (quit : Bool)
    (v r : Nat) :
    (drain (pre ++ ⟨XMSG_CMD_QUIT, v, r⟩ :: post) s quit).1 =
      (drain post (drain pre s quit).1 false).1 ∧
    (drain (pre ++ ⟨XMSG_CMD_QUIT, v, r⟩ :: post) s quit).2.1 = true ∧
    (drain (pre ++ ⟨XMSG_CMD_QUIT, v, r⟩ :: post) s quit).2.2 =
      (drain pre s quit).2.2 ++
        [Effect.getMsg ⟨XMSG_CMD_QUIT, v, r⟩, Effect.replyMsg ⟨XMSG_CMD_QUIT, v, 0⟩] ++
        (drain post (drain pre s quit).1 false).2.2 := by
  rw [drain_append]
  simp only [drain, handleMsg_quit, List.nil_append, List.append_nil]
  obtain ⟨h1, h2⟩ := drain_quit_flag post (drain pre s quit).1 true false
  refine ⟨h1, drain_quit_stays _ _, ?_⟩
  rw [h2]
  simp

/-- C11: for every queue of control messages that holds a `Quit`, in the loop iteration
that handles the port signal the `Quit` is replied to with 0, the messages queued after it
are handled and replied to exactly as a drain without a pending quit handles them from the
same state, every message of the queue is replied to, and the loop is left in that
iteration, after the whole queue and with nothing done after the last reply. -/
theorem quit_after_drain (K : SysHeaders) (timerSig portSig : Nat) (s : DaemonState)
    (quit : Bool) (pre post : List XMouseMsg) (v r signals : Nat) (hw : HwSample)
    (hc : signals &&& K.SIGBREAKF_CTRL_C = 0) (hp : signals &&& portSig ≠ 0) :
    (daemon_iteration K timerSig portSig s quit
      ⟨signals, pre ++ ⟨XMSG_CMD_QUIT, v, r⟩ :: post, hw⟩).broke = true ∧
    (daemon_iteration K timerSig portSig s quit
      ⟨signals, pre ++ ⟨XMSG_CMD_QUIT, v, r⟩ :: post, hw⟩).state =
        (drain post (drain pre s quit).1 false).1 ∧
    (daemon_iteration K timerSig portSig s quit
      ⟨signals, pre ++ ⟨XMSG_CMD_QUIT, v, r⟩ :: post, hw⟩).effects =
        (drain pre s quit).2.2 ++
          [Effect.getMsg ⟨XMSG_CMD_QUIT, v, r⟩, Effect.replyMsg ⟨XMSG_CMD_QUIT, v, 0⟩] ++
          (drain post (drain pre s quit).1 false).2.2 ∧
    (replied (daemon_iteration K timerSig portSig s quit
      ⟨signals, pre ++ ⟨XMSG_CMD_QUIT, v, r⟩ :: post, hw⟩).effects).length =
        pre.length + 1 + post.length := by
  obtain ⟨d1, d2, d3⟩ := drain_with_quit pre post s quit v r
  have hit : daemon_iteration K timerSig portSig s quit
      ⟨signals, pre ++ ⟨XMSG_CMD_QUIT, v, r⟩ :: post, hw⟩ =
      ⟨true, (drain (pre ++ ⟨XMSG_CMD_QUIT, v, r⟩ :: post) s quit).1,
        (drain (pre ++ ⟨XMSG_CMD_QUIT, v, r⟩ :: post) s quit).2.1,
        (drain (pre ++ ⟨XMSG_CMD_QUIT, v, r⟩ :: post) s quit).2.2⟩ := by
    simp only [daemon_iteration, hc, ne_eq, not_true_eq_false, if_false, hp,
      not_false_eq_true, if_true, true_and, d2]
  rw [hit]
  refine ⟨rfl, d1, d3, ?_⟩
  show (replied (drain (pre ++ ⟨XMSG_CMD_QUIT, v, r⟩ :: post) s quit).2.2).length = _
  rw [drain_replied_length]
  simp
  omega

/-- An instance of C11, the scenario of the claim: a `Quit` followed by `SetInterval(7000)`
and `GetStatus`, handled together with a tick signal, gives three replies, the last one
showing the interval set by the second message, and then the loop is left without a tick. -/
theorem quit_after_drain_witness :
    (0x30000 &&& ndk.SIGBREAKF_CTRL_C = 0 ∧ 0x30000 &&& 0x20000 ≠ 0) ∧
    (daemon_iteration ndk 0x10000 0x20000 (daemon_Init_state staticState ⟨0, 0, 0⟩) false
      ⟨0x30000, [] ++ ⟨XMSG_CMD_QUIT, 0, 0⟩ :: [⟨2, 7000, 0⟩, ⟨3, 0, 0⟩], ⟨0, 4, 0⟩⟩).broke
      = true ∧
    (daemon_iteration ndk 0x10000 0x20000 (daemon_Init_state staticState ⟨0, 0, 0⟩) false
      ⟨0x30000, [] ++ ⟨XMSG_CMD_QUIT, 0, 0⟩ :: [⟨2, 7000, 0⟩, ⟨3, 0, 0⟩], ⟨0, 4, 0⟩⟩).effects =
      [Effect.getMsg ⟨0, 0, 0⟩, Effect.replyMsg ⟨0, 0, 0⟩,
       Effect.getMsg ⟨2, 7000, 0⟩, Effect.timerAbort, Effect.timerWait,
       Effect.timerStart 0 7000, Effect.replyMsg ⟨2, 7000, 7000⟩,
       Effect.getMsg ⟨3, 0, 0⟩, Effect.replyMsg ⟨3, 0, 0x130007⟩] :=
  ⟨⟨by decide, by decide⟩,
   (quit_after_drain ndk 0x10000 0x20000 (daemon_Init_state staticState ⟨0, 0, 0⟩) false
     [] [⟨2, 7000, 0⟩, ⟨3, 0, 0⟩] 0 0 0x30000 ⟨0, 4, 0⟩ (by decide) (by decide)).1,
   by decide⟩

/-! ## Cancellation -/

/-- C13: in every loop iteration whose signal set holds `SIGBREAKF_CTRL_C`, whatever other
signals are set and whatever is queued, the loop is left in that iteration with no effect
at all (no message dequeued or replied to, no hardware register read, no event injected,
no timer operation) and with the globals and `quit` unchanged. -/
theorem ctrl_c_first (K : SysHeaders) (timerSig portSig : Nat) (s : DaemonState)
    (quit : Bool) (w : Wake) (ws : List Wake)
    (hc : w.signals &&& K.SIGBREAKF_CTRL_C ≠ 0) :
    daemon_iteration K timerSig portSig s quit w = ⟨true, s, quit, []⟩ ∧
    daemon_loop K timerSig portSig (w :: ws) s quit = (true, s, []) := by
  have h : daemon_iteration K timerSig portSig s quit w = ⟨true, s, quit, []⟩ := by
    simp only [daemon_iteration]
    rw [if_pos hc]
  exact ⟨h, by simp only [daemon_loop, h, if_true]⟩

/-- An instance of C13: Ctrl-C together with the tick and the port signal, with a
`SetInterval` queued and the wheel moved, leaves the loop with nothing done. -/
theorem ctrl_c_first_witness :
    (0x31000 &&& ndk.SIGBREAKF_CTRL_C ≠ 0) ∧
    daemon_iteration ndk 0x10000 0x20000 (daemon_Init_state staticState ⟨0, 0, 0⟩) false
      ⟨0x31000, [⟨2, 7000, 0⟩], ⟨0, 9, 0x0100⟩⟩ =
      ⟨true, daemon_Init_state staticState ⟨0, 0, 0⟩, false, []⟩ :=
  ⟨by decide,
   (ctrl_c_first ndk 0x10000 0x20000 (daemon_Init_state staticState ⟨0, 0, 0⟩) false
     ⟨0x31000, [⟨2, 7000, 0⟩], ⟨0, 9, 0x0100⟩⟩ [] (by decide)).1⟩

/-! ## Both features disabled -/

theorem tick_all_off (K : SysHeaders) (s : DaemonState) (hw : HwSample)
    (h1 : s.s_configByte &&& CONFIG_WHEEL_ENABLED = 0)
    (h2 : s.s_configByte &&& CONFIG_BUTTONS_ENABLED = 0) :
    injected (daemon_tick K s hw).2 = [] := by
  have hg : gatedWheel K (initEventBuf s hw.qualifier) hw = (initEventBuf s hw.qualifier, []) :=
    gatedWheel_off K _ hw h1
  have hb : gatedButtons K (initEventBuf s hw.qualifier) hw =
      (initEventBuf s hw.qualifier, []) := by
    have : (initEventBuf s hw.qualifier).s_configByte = s.s_configByte := rfl
    simp [gatedButtons, this, h2]
  rw [tick_injected, hg, hb]
  rfl

theorem runTicks_all_off (K : SysHeaders) (hws : List HwSample) (s : DaemonState)
    (h1 : s.s_configByte &&& CONFIG_WHEEL_ENABLED = 0)
    (h2 : s.s_configByte &&& CONFIG_BUTTONS_ENABLED = 0) :
    injected (runTicks K hws s).2 = [] := by
  induction hws generalizing s with
  | nil => rfl
  | cons hw rest ih =>
    have hc := (tick_frame K s hw).2
    simp only [runTicks, injected_append, tick_all_off K s hw h1 h2, List.nil_append]
    exact ih _ (by rw [hc]; exact h1) (by rw [hc]; exact h2)

/-- C12: in every daemon state `SetConfig(0x00)` is accepted: the reply echoes the
configuration byte 0, which is not the error value `0xFFFFFFFF`, the configuration byte
becomes 0, `quit` keeps its value and the iteration that handles the message does not leave
the loop; in every sequence of ticks that follows, whatever the wheel counter and the
button register read, no event is injected. -/
theorem setConfig_zero_accepted (K : SysHeaders) (timerSig portSig : Nat) (s : DaemonState)
    (quit : Bool) (r : Nat) (hws : List HwSample) :
    (handleMsg s quit ⟨XMSG_CMD_SET_CONFIG, 0, r⟩).reply = ⟨XMSG_CMD_SET_CONFIG, 0, 0⟩ ∧
    (handleMsg s quit ⟨XMSG_CMD_SET_CONFIG, 0, r⟩).reply.result ≠ 0xFFFFFFFF ∧
    (handleMsg s quit ⟨XMSG_CMD_SET_CONFIG, 0, r⟩).state.s_configByte = 0 ∧
    (handleMsg s quit ⟨XMSG_CMD_SET_CONFIG, 0, r⟩).quit = quit ∧
    (∀ (signals : Nat) (hw : HwSample), signals &&& K.SIGBREAKF_CTRL_C = 0 →
      (daemon_iteration K timerSig portSig s false
        ⟨signals, [⟨XMSG_CMD_SET_CONFIG, 0, r⟩], hw⟩).broke = false) ∧
    injected (runTicks K hws (handleMsg s quit ⟨XMSG_CMD_SET_CONFIG, 0, r⟩).state).2 = [] := by
  have hrep : ∀ q, (handleMsg s q ⟨XMSG_CMD_SET_CONFIG, 0, r⟩).reply =
      ⟨XMSG_CMD_SET_CONFIG, 0, 0⟩ := by
    intro q; rw [handleMsg_setConfig]; split_ifs <;> rfl
  have hcfg : (handleMsg s quit ⟨XMSG_CMD_SET_CONFIG, 0, r⟩).state.s_configByte = 0 := by
    rw [handleMsg_setConfig]; split_ifs <;> rfl
  have hq : ∀ q, (handleMsg s q ⟨XMSG_CMD_SET_CONFIG, 0, r⟩).quit = q := by
    intro q; rw [handleMsg_setConfig]; split_ifs <;> rfl
  refine ⟨hrep quit, ?_, hcfg, hq quit, ?_, ?_⟩
  · rw [hrep quit]; decide
  · intro signals hw hc
    simp only [daemon_iteration, hc, ne_eq, not_true_eq_false, if_false, drain, hq false]
    split_ifs <;> simp_all
  · apply runTicks_all_off
    · rw [hcfg]; rfl
    · rw [hcfg]; rfl

/-! ## The status word -/

/-- C19: for every configuration byte and every poll interval whose value in milliseconds
is below 65536, the result `r` of `GetStatus` decodes without ambiguity: `r >> 16` is the
configuration byte and `r & 0xFFFF` is the interval in milliseconds. -/
theorem status_fields_disjoint (s : DaemonState) (quit : Bool) (v r : Nat)
    (hi : s.s_pollInterval / 1000 < 65536) :
    (handleMsg s quit ⟨XMSG_CMD_GET_STATUS, v, r⟩).reply.result >>> 16 = s.s_configByte ∧
    (handleMsg s quit ⟨XMSG_CMD_GET_STATUS, v, r⟩).reply.result &&& 0xFFFF =
      s.s_pollInterval / 1000 := by
  rw [handleMsg_getStatus]
  have h : 2 ^ 16 * s.s_configByte + s.s_pollInterval / 1000 =
      2 ^ 16 * s.s_configByte ||| s.s_pollInterval / 1000 :=
    Nat.mul_add_lt_is_or (by omega) s.s_configByte
  have hm : (0xFFFF : Nat) = 2 ^ 16 - 1 := by norm_num
  simp only [Nat.shiftLeft_eq, Nat.shiftRight_eq_div_pow, hm, Nat.and_pow_two_sub_one_eq_mod]
  rw [Nat.mul_comm, ← h]
  constructor <;> omega

/-- An instance of C19: configuration byte `0x93` and an interval of 65,535,999
microseconds give the status word `0x93FFFF`, which decodes to `0x93` and 65535. -/
theorem status_fields_disjoint_witness :
    (({ staticState with s_configByte := 0x93, s_pollInterval := 65535999 } : DaemonState)
      |>.s_pollInterval) / 1000 < 65536 ∧
    (handleMsg { staticState with s_configByte := 0x93, s_pollInterval := 65535999 } false
      ⟨XMSG_CMD_GET_STATUS, 0, 0⟩).reply.result = 0x93FFFF ∧
    (handleMsg { staticState with s_configByte := 0x93, s_pollInterval := 65535999 } false
      ⟨XMSG_CMD_GET_STATUS, 0, 0⟩).reply.result >>> 16 = 0x93 ∧
    (handleMsg { staticState with s_configByte := 0x93, s_pollInterval := 65535999 } false
      ⟨XMSG_CMD_GET_STATUS, 0, 0⟩).reply.result &&& 0xFFFF = 65535 :=
  ⟨by decide, by decide,
   (status_fields_disjoint { staticState with s_configByte := 0x93, s_pollInterval := 65535999 }
     false 0 0 (by decide)).1,
   by decide⟩

/-! ## Re-enabling a feature -/

/-- C18 does not hold on the code: `SetConfig` never writes `s_lastCounter` or
`s_lastButtons`.  After a start with the wheel counter at 0, the wheel is disabled, the
counter moves to 5 while a tick passes, and the wheel is enabled again: the first tick
after that, with the counter still at 5, injects five `NM_WHEEL_UP` pairs.  In the same way
button 4, pressed while the buttons were disabled, gives a press pair on the first tick
after they are enabled again. -/
theorem setConfig_no_rebaseline :
    (∀ (s : DaemonState) (quit : Bool) (v r : Nat),
      (handleMsg s quit ⟨XMSG_CMD_SET_CONFIG, v, r⟩).state.s_lastCounter = s.s_lastCounter ∧
      (handleMsg s quit ⟨XMSG_CMD_SET_CONFIG, v, r⟩).state.s_lastButtons = s.s_lastButtons) ∧
    injected (daemon_loop ndk 0x10000 0x20000
        [⟨0x20000, [⟨XMSG_CMD_SET_CONFIG, 0x12, 0⟩], ⟨0, 0, 0⟩⟩,
         ⟨0x10000, [], ⟨0, 5, 0⟩⟩,
         ⟨0x20000, [⟨XMSG_CMD_SET_CONFIG, 0x13, 0⟩], ⟨0, 5, 0⟩⟩,
         ⟨0x10000, [], ⟨0, 5, 0⟩⟩]
        (daemon_Init_state staticState ⟨0, 0, 0⟩) false).2.2 =
      eventPairs ndk ⟨0, 0, 0, 0, 0, 0, 0, 0, 0⟩ (List.replicate 5 0x7A) ∧
    injected (daemon_loop ndk 0x10000 0x20000
        [⟨0x20000, [⟨XMSG_CMD_SET_CONFIG, 0x11, 0⟩], ⟨0, 0, 0⟩⟩,
         ⟨0x10000, [], ⟨0, 0, 0x0100⟩⟩,
         ⟨0x20000, [⟨XMSG_CMD_SET_CONFIG, 0x13, 0⟩], ⟨0, 0, 0x0100⟩⟩,
         ⟨0x10000, [], ⟨0, 0, 0x0100⟩⟩]
        (daemon_Init_state staticState ⟨0, 0, 0⟩) false).2.2 =
      eventPairs ndk ⟨0, 0, 0, 0, 0, 0, 0, 0, 0⟩ [0x7E] := by
  refine ⟨?_, by decide, by decide⟩
  intro s quit v r
  rw [handleMsg_setConfig]
  split_ifs <;> exact ⟨rfl, rfl⟩

/-! ## The timer request -/

/-- C14 does not hold on the code: in an iteration woken by the tick signal and the port
signal together, with a `SetInterval` of one hour queued, the message handler aborts,
awaits and sends the timer request, and the tick branch of the same iteration sends it
again, with no completion and no abort in between. -/
theorem tick_after_restart_sends_twice :
    timerOps (daemon_iteration ndk 0x10000 0x20000 (daemon_Init_state staticState ⟨0, 0, 0⟩)
      false ⟨0x30000, [⟨XMSG_CMD_SET_INTERVAL, 3600000000, 0⟩], ⟨0, 0, 0⟩⟩).effects =
      [Effect.timerAbort, Effect.timerWait, Effect.timerStart 3600 0,
       Effect.timerStart 3600 0] ∧
    timerCheck false (daemon_iteration ndk 0x10000 0x20000
      (daemon_Init_state staticState ⟨0, 0, 0⟩)
      false ⟨0x30000, [⟨XMSG_CMD_SET_INTERVAL, 3600000000, 0⟩], ⟨0, 0, 0⟩⟩).effects = none ∧
    timerCheck false (daemon_iteration ndk 0x10000 0x20000
      (daemon_Init_state staticState ⟨0, 0, 0⟩)
      false ⟨0x30000, [⟨XMSG_CMD_SET_CONFIG, 0x23, 0⟩], ⟨0, 0, 0⟩⟩).effects = none := by
  refine ⟨by decide, by decide, by decide⟩

/-! ## Start-up failures and clean-up -/

theorem all_available_iff (avail : Resource → Bool) :
    (∀ r, avail r = true) ↔
      avail Resource.dosLibrary = true ∧ avail Resource.publicPort = true ∧
      avail Resource.inputPort = true ∧ avail Resource.inputReq = true ∧
      avail Resource.inputDevice = true ∧ avail Resource.timerPort = true ∧
      avail Resource.timerReq = true ∧ avail Resource.timerDevice = true := by
  constructor
  · intro h
    exact ⟨h _, h _, h _, h _, h _, h _, h _, h _⟩
  · rintro ⟨h1, h2, h3, h4, h5, h6, h7, h8⟩ r
    cases r <;> assumption

/-- C15: whichever acquisitions of `daemon_Init` succeed, every resource is acquired at
most once, only a resource that is held is released, and when `daemon` returns nothing is
held any more; the loop is entered only if all eight acquisitions succeeded, and then the
resources are acquired in the order DOS library, public port, input port, request and
device, timer port, request and device, and `daemon_Cleanup` releases them in exactly the
reverse order. -/
theorem init_failure_releases (avail : Resource → Bool) (timerPending : Bool) :
    heldAfter [] (daemon_resources avail timerPending) = some [] ∧
    ((daemon_Init_resources avail noHandles).1 = true ↔ ∀ r, avail r = true) ∧
    (ResOp.loop ∈ daemon_resources avail timerPending ↔ ∀ r, avail r = true) ∧
    ((∀ r, avail r = true) →
      acquisitions (daemon_Init_resources avail noHandles).2.2 =
        [Resource.dosLibrary, Resource.publicPort, Resource.inputPort, Resource.inputReq,
         Resource.inputDevice, Resource.timerPort, Resource.timerReq, Resource.timerDevice] ∧
      releases (daemon_Init_resources avail noHandles).2.2 = [] ∧
      releases (daemon_Cleanup (daemon_Init_resources avail noHandles).2.1 timerPending) =
        [Resource.timerDevice, Resource.timerReq, Resource.timerPort, Resource.inputDevice,
         Resource.inputReq, Resource.inputPort, Resource.publicPort, Resource.dosLibrary]) := by
  rw [all_available_iff]
  cases h1 : avail Resource.dosLibrary
  · simp [daemon_resources, daemon_Init_resources, h1, daemon_Cleanup, noHandles, heldAfter]
  cases h2 : avail Resource.publicPort
  · simp [daemon_resources, daemon_Init_resources, h1, h2, daemon_Cleanup, noHandles,
      heldAfter]
  cases h3 : avail Resource.inputPort
  · simp [daemon_resources, daemon_Init_resources, h1, h2, h3, daemon_Cleanup, noHandles,
      heldAfter]
  cases h4 : avail Resource.inputReq
  · simp [daemon_resources, daemon_Init_resources, h1, h2, h3, h4, daemon_Cleanup, noHandles,
      heldAfter]
  cases h5 : avail Resource.inputDevice
  · simp [daemon_resources, daemon_Init_resources, h1, h2, h3, h4, h5, daemon_Cleanup,
      noHandles, heldAfter]
  cases h6 : avail Resource.timerPort
  · simp [daemon_resources, daemon_Init_resources, h1, h2, h3, h4, h5, h6, daemon_Cleanup,
      noHandles, heldAfter]
  cases h7 : avail Resource.timerReq
  · simp [daemon_resources, daemon_Init_resources, h1, h2, h3, h4, h5, h6, h7,
      daemon_Cleanup, noHandles, heldAfter]
  cases h8 : avail Resource.timerDevice
  · simp [daemon_resources, daemon_Init_resources, h1, h2, h3, h4, h5, h6, h7, h8,
      daemon_Cleanup, noHandles, heldAfter]
  · cases timerPending <;>
    simp [daemon_resources, daemon_Init_resources, h1, h2, h3, h4, h5, h6, h7, h8,
      daemon_Cleanup, noHandles, heldAfter, acquisitions, releases]

/-- An evaluation of the start-up: when `OpenDevice("input.device")` fails, `daemon_Init`
deletes the input request and the input port itself, and `daemon_Cleanup` removes and
deletes the public port and closes the DOS library. -/
theorem init_failure_input_device :
    daemon_resources (fun r => decide (r ≠ Resource.inputDevice)) true =
      [ResOp.acquire Resource.dosLibrary, ResOp.acquire Resource.publicPort, ResOp.addPort,
       ResOp.acquire Resource.inputPort, ResOp.acquire Resource.inputReq,
       ResOp.release Resource.inputReq, ResOp.release Resource.inputPort,
       ResOp.remPort, ResOp.release Resource.publicPort,
       ResOp.release Resource.dosLibrary] := by
  decide

/-! ## Acquiring a CIA timer -/

theorem addICRVector_busy (w : CiaWorld) (resource : Chip) (bit : Nat) (o : Owner)
    (h : w.vectors resource bit = some o) :
    AddICRVector w resource bit =
      ({ w with calls := w.calls ++ [CiaCall.AddICRVector resource bit] }, some o) := by
  simp only [AddICRVector, h]

theorem addICRVector_free (w : CiaWorld) (resource : Chip) (bit : Nat)
    (h : w.vectors resource bit = none) :
    AddICRVector w resource bit =
      ({ w with calls := w.calls ++ [CiaCall.AddICRVector resource bit],
                vectors := fun c b =>
                  if c = resource ∧ b = bit then some Owner.CIAInt else w.vectors c b },
       none) := by
  simp only [AddICRVector, h]

theorem allocCIATimer_busy (H : CiaHeaders) (w : CiaWorld) (ciabase cia : Chip) (bit : Nat)
    (o : Owner) (h : w.vectors ciabase bit = some o) :
    AllocCIATimer H w ciabase cia bit =
      ({ w with calls := w.calls ++ [CiaCall.AddICRVector ciabase bit] }, false) := by
  simp [AllocCIATimer, addICRVector_busy w ciabase bit o h]

theorem allocCIATimer_free (H : CiaHeaders) (w : CiaWorld) (ciabase cia : Chip) (bit : Nat)
    (h : w.vectors ciabase bit = none) :
    (AllocCIATimer H w ciabase cia bit).2 = true ∧
    (AllocCIATimer H w ciabase cia bit).1.calls =
      w.calls ++ [CiaCall.AddICRVector ciabase bit] ∧
    (∀ c b, (AllocCIATimer H w ciabase cia bit).1.vectors c b =
      if (ciabase, bit) = (c, b) then some Owner.CIAInt else w.vectors c b) ∧
    (AllocCIATimer H w ciabase cia bit).1.regs = w.regs ∧
    (AllocCIATimer H w ciabase cia bit).1.CIACr =
      some (cia, if bit = H.CIAICRB_TA then CiaReg.ciacra else CiaReg.ciacrb) ∧
    (AllocCIATimer H w ciabase cia bit).1.CIALo =
      some (cia, if bit = H.CIAICRB_TA then CiaReg.ciatalo else CiaReg.ciatblo) ∧
    (AllocCIATimer H w ciabase cia bit).1.CIAHi =
      some (cia, if bit = H.CIAICRB_TA then CiaReg.ciatahi else CiaReg.ciatbhi) ∧
    (AllocCIATimer H w ciabase cia bit).1.StopMask =
      (if bit = H.CIAICRB_TA then STOPA_AND H else STOPB_AND H) % 256 ∧
    (AllocCIATimer H w ciabase cia bit).1.StartMask =
      (if bit = H.CIAICRB_TA then STARTA_OR H else STARTB_OR H) % 256 ∧
    (AllocCIATimer H w ciabase cia bit).1.CIAChip = some cia ∧
    (AllocCIATimer H w ciabase cia bit).1.CIABase = some ciabase := by
  have hv : ∀ c b, (if c = ciabase ∧ b = bit then some Owner.CIAInt else w.vectors c b) =
      if (ciabase, bit) = (c, b) then some Owner.CIAInt else w.vectors c b := by
    intro c b
    by_cases hc : c = ciabase ∧ b = bit
    · obtain ⟨rfl, rfl⟩ := hc; simp
    · have : ¬ ((ciabase, bit) = (c, b)) := by
        intro he; injection he with h1 h2; exact hc ⟨h1.symm, h2.symm⟩
      rw [if_neg hc, if_neg this]
  simp only [AllocCIATimer, addICRVector_free w ciabase bit h, if_true]
  split_ifs <;>
    (refine ⟨?_, ?_, hv, ?_, ?_, ?_, ?_, ?_, ?_, ?_, ?_⟩ <;> first | rfl | trivial)

theorem firstFree_eq_none_iff (w : CiaWorld) (cs : List (Chip × Nat)) :
    firstFree w cs = none ↔ ∀ c ∈ cs, w.vectors c.1 c.2 ≠ none := by
  induction cs with
  | nil => simp [firstFree]
  | cons c rest ih =>
    by_cases h : w.vectors c.1 c.2 = none
    · simp [firstFree, h]
    · simp [firstFree, h, ih]

/-- C16: for every state of the four candidate timers, when both CIA resources open,
`FindFreeCIATimer` calls `AddICRVector` on the candidates in the order CIA-A timer A, CIA-A
timer B, CIA-B timer A, CIA-B timer B and stops after the first one that is free; the
interrupt is installed on that candidate and on no other, the control, low and high
registers of that candidate and its stop and start masks are recorded (those of timer A
when the candidate's bit is `CIAICRB_TA`, those of timer B otherwise), and the result is
`FALSE` if and only if all four candidates are in use. -/
theorem findFree_first_candidate (H : CiaHeaders) (w : CiaWorld) :
    ((FindFreeCIATimer H w true true).2 = false ↔
      ∀ c ∈ candidates H, w.vectors c.1 c.2 ≠ none) ∧
    (FindFreeCIATimer H w true true).1.calls =
      w.calls ++ (attempted w (candidates H)).map (fun c => CiaCall.AddICRVector c.1 c.2) ∧
    (∀ chip bit, (FindFreeCIATimer H w true true).1.vectors chip bit =
      if firstFree w (candidates H) = some (chip, bit) then some Owner.CIAInt
      else w.vectors chip bit) ∧
    (∀ c, firstFree w (candidates H) = some c →
      (FindFreeCIATimer H w true true).1.CIACr =
        some (c.1, if c.2 = H.CIAICRB_TA then CiaReg.ciacra else CiaReg.ciacrb) ∧
      (FindFreeCIATimer H w true true).1.CIALo =
        some (c.1, if c.2 = H.CIAICRB_TA then CiaReg.ciatalo else CiaReg.ciatblo) ∧
      (FindFreeCIATimer H w true true).1.CIAHi =
        some (c.1, if c.2 = H.CIAICRB_TA then CiaReg.ciatahi else CiaReg.ciatbhi) ∧
      (FindFreeCIATimer H w true true).1.StopMask =
        (if c.2 = H.CIAICRB_TA then STOPA_AND H else STOPB_AND H) % 256 ∧
      (FindFreeCIATimer H w true true).1.StartMask =
        (if c.2 = H.CIAICRB_TA then STARTA_OR H else STARTB_OR H) % 256 ∧
      (FindFreeCIATimer H w true true).1.CIAChip = some c.1 ∧
      (FindFreeCIATimer H w true true).1.CIABase = some c.1) ∧
    (firstFree w (candidates H) = none →
      (FindFreeCIATimer H w true true).1.CIACr = w.CIACr ∧
      (FindFreeCIATimer H w true true).1.CIABase = w.CIABase ∧
      (FindFreeCIATimer H w true true).1.StopMask = w.StopMask ∧
      (FindFreeCIATimer H w true true).1.StartMask = w.StartMask) := by
  rw [← firstFree_eq_none_iff]
  cases h1 : w.vectors Chip.ciaa H.CIAICRB_TA with
  | none =>
    have hk : w.vectors Chip.ciaa H.CIAICRB_TA = none := h1
    obtain ⟨a1, a2, a3, _, a5, a6, a7, a8, a9, a10, a11⟩ :=
      allocCIATimer_free H w Chip.ciaa Chip.ciaa H.CIAICRB_TA hk
    have hf : firstFree w (candidates H) = some (Chip.ciaa, H.CIAICRB_TA) := by
      simp [firstFree, candidates, h1]
    have hF : FindFreeCIATimer H w true true =
        ((AllocCIATimer H w Chip.ciaa Chip.ciaa H.CIAICRB_TA).1, true) := by
      simp [FindFreeCIATimer, a1]
    rw [hF, hf]
    refine ⟨by simp, ?_, ?_, ?_, by simp⟩
    · simp [a2, attempted, candidates, h1]
    · intro chip bit
      rw [a3]
      by_cases he : (Chip.ciaa, H.CIAICRB_TA) = (chip, bit)
      · simp [he]
      · have he2 : ¬ (some (Chip.ciaa, H.CIAICRB_TA) = some (chip, bit)) :=
          fun hs => he (Option.some.inj hs)
        rw [if_neg he, if_neg he2]
    · intro c hc
      injection hc with hc
      subst hc
      exact ⟨a5, a6, a7, a8, a9, a10, a11⟩
  | some o1 =>
    have hA1 : AllocCIATimer H w Chip.ciaa Chip.ciaa H.CIAICRB_TA =
        ({ w with calls := w.calls ++ [CiaCall.AddICRVector Chip.ciaa H.CIAICRB_TA] }, false) :=
      allocCIATimer_busy H w Chip.ciaa Chip.ciaa H.CIAICRB_TA o1 h1
    generalize hw1 : ({ w with
      calls := w.calls ++ [CiaCall.AddICRVector Chip.ciaa H.CIAICRB_TA] } : CiaWorld) = w1 at hA1
    have v1 : w1.vectors = w.vectors := by rw [← hw1]
    have c1 : w1.calls = w.calls ++ [CiaCall.AddICRVector Chip.ciaa H.CIAICRB_TA] := by
      rw [← hw1]
    have g1 : w1.CIACr = w.CIACr ∧ w1.CIABase = w.CIABase ∧
        w1.StopMask = w.StopMask ∧ w1.StartMask = w.StartMask := by
      rw [← hw1]; exact ⟨rfl, rfl, rfl, rfl⟩
    cases h2 : w.vectors Chip.ciaa H.CIAICRB_TB with
    | none =>
      have hk : w1.vectors Chip.ciaa H.CIAICRB_TB = none := by rw [v1]; exact h2
      obtain ⟨a1, a2, a3, _, a5, a6, a7, a8, a9, a10, a11⟩ :=
        allocCIATimer_free H w1 Chip.ciaa Chip.ciaa H.CIAICRB_TB hk
      have hf : firstFree w (candidates H) = some (Chip.ciaa, H.CIAICRB_TB) := by
        simp [firstFree, candidates, h1, h2]
      have hF : FindFreeCIATimer H w true true =
          ((AllocCIATimer H w1 Chip.ciaa Chip.ciaa H.CIAICRB_TB).1, true) := by
        simp [FindFreeCIATimer, a1, hA1]
      rw [hF, hf]
      refine ⟨by simp, ?_, ?_, ?_, by simp⟩
      · simp [a2, c1, attempted, candidates, h1, h2]
      · intro chip bit
        rw [a3]
        rw [v1]
        by_cases he : (Chip.ciaa, H.CIAICRB_TB) = (chip, bit)
        · simp [he]
        · have he2 : ¬ (some (Chip.ciaa, H.CIAICRB_TB) = some (chip, bit)) :=
            fun hs => he (Option.some.inj hs)
          rw [if_neg he, if_neg he2]
      · intro c hc
        injection hc with hc
        subst hc
        exact ⟨a5, a6, a7, a8, a9, a10, a11⟩
    | some o2 =>
      have hA2 : AllocCIATimer H w1 Chip.ciaa Chip.ciaa H.CIAICRB_TB =
          ({ w1 with calls := w1.calls ++ [CiaCall.AddICRVector Chip.ciaa H.CIAICRB_TB] }, false) :=
        allocCIATimer_busy H w1 Chip.ciaa Chip.ciaa H.CIAICRB_TB o2 (by rw [v1]; exact h2)
      generalize hw2 : ({ w1 with
        calls := w1.calls ++ [CiaCall.AddICRVector Chip.ciaa H.CIAICRB_TB] } : CiaWorld) = w2 at hA2
      have v2 : w2.vectors = w.vectors := by rw [← hw2]; exact v1
      have c2 : w2.calls = w.calls ++ [CiaCall.AddICRVector Chip.ciaa H.CIAICRB_TA, CiaCall.AddICRVector Chip.ciaa H.CIAICRB_TB] := by
        rw [← hw2]; simp [c1]
      have g2 : w2.CIACr = w.CIACr ∧ w2.CIABase = w.CIABase ∧
          w2.StopMask = w.StopMask ∧ w2.StartMask = w.StartMask := by
        rw [← hw2]; exact g1
      cases h3 : w.vectors Chip.ciab H.CIAICRB_TA with
      | none =>
        have hk : w2.vectors Chip.ciab H.CIAICRB_TA = none := by rw [v2]; exact h3
        obtain ⟨a1, a2, a3, _, a5, a6, a7, a8, a9, a10, a11⟩ :=
          allocCIATimer_free H w2 Chip.ciab Chip.ciab H.CIAICRB_TA hk
        have hf : firstFree w (candidates H) = some (Chip.ciab, H.CIAICRB_TA) := by
          simp [firstFree, candidates, h1, h2, h3]
        have hF : FindFreeCIATimer H w true true =
            ((AllocCIATimer H w2 Chip.ciab Chip.ciab H.CIAICRB_TA).1, true) := by
          simp [FindFreeCIATimer, a1, hA1, hA2]
        rw [hF, hf]
        refine ⟨by simp, ?_, ?_, ?_, by simp⟩
        · simp [a2, c2, attempted, candidates, h1, h2, h3]
        · intro chip bit
          rw [a3]
          rw [v2]
          by_cases he : (Chip.ciab, H.CIAICRB_TA) = (chip, bit)
          · simp [he]
          · have he2 : ¬ (some (Chip.ciab, H.CIAICRB_TA) = some (chip, bit)) :=
              fun hs => he (Option.some.inj hs)
            rw [if_neg he, if_neg he2]
        · intro c hc
          injection hc with hc
          subst hc
          exact ⟨a5, a6, a7, a8, a9, a10, a11⟩
      | some o3 =>
        have hA3 : AllocCIATimer H w2 Chip.ciab Chip.ciab H.CIAICRB_TA =
            ({ w2 with calls := w2.calls ++ [CiaCall.AddICRVector Chip.ciab H.CIAICRB_TA] }, false) :=
          allocCIATimer_busy H w2 Chip.ciab Chip.ciab H.CIAICRB_TA o3 (by rw [v2]; exact h3)
        generalize hw3 : ({ w2 with
          calls := w2.calls ++ [CiaCall.AddICRVector Chip.ciab H.CIAICRB_TA] } : CiaWorld) = w3 at hA3
        have v3 : w3.vectors = w.vectors := by rw [← hw3]; exact v2
        have c3 : w3.calls = w.calls ++ [CiaCall.AddICRVector Chip.ciaa H.CIAICRB_TA, CiaCall.AddICRVector Chip.ciaa H.CIAICRB_TB, CiaCall.AddICRVector Chip.ciab H.CIAICRB_TA] := by
          rw [← hw3]; simp [c2]
        have g3 : w3.CIACr = w.CIACr ∧ w3.CIABase = w.CIABase ∧
            w3.StopMask = w.StopMask ∧ w3.StartMask = w.StartMask := by
          rw [← hw3]; exact g2
        cases h4 : w.vectors Chip.ciab H.CIAICRB_TB with
        | none =>
          have hk : w3.vectors Chip.ciab H.CIAICRB_TB = none := by rw [v3]; exact h4
          obtain ⟨a1, a2, a3, _, a5, a6, a7, a8, a9, a10, a11⟩ :=
            allocCIATimer_free H w3 Chip.ciab Chip.ciab H.CIAICRB_TB hk
          have hf : firstFree w (candidates H) = some (Chip.ciab, H.CIAICRB_TB) := by
            simp [firstFree, candidates, h1, h2, h3, h4]
          have hF : FindFreeCIATimer H w true true =
              ((AllocCIATimer H w3 Chip.ciab Chip.ciab H.CIAICRB_TB).1, true) := by
            simp [FindFreeCIATimer, a1, hA1, hA2, hA3]
          rw [hF, hf]
          refine ⟨by simp, ?_, ?_, ?_, by simp⟩
          · simp [a2, c3, attempted, candidates, h1, h2, h3, h4]
          · intro chip bit
            rw [a3]
            rw [v3]
            by_cases he : (Chip.ciab, H.CIAICRB_TB) = (chip, bit)
            · simp [he]
            · have he2 : ¬ (some (Chip.ciab, H.CIAICRB_TB) = some (chip, bit)) :=
                fun hs => he (Option.some.inj hs)
              rw [if_neg he, if_neg he2]
          · intro c hc
            injection hc with hc
            subst hc
            exact ⟨a5, a6, a7, a8, a9, a10, a11⟩
        | some o4 =>
          have hA4 : AllocCIATimer H w3 Chip.ciab Chip.ciab H.CIAICRB_TB =
              ({ w3 with calls := w3.calls ++ [CiaCall.AddICRVector Chip.ciab H.CIAICRB_TB] }, false) :=
            allocCIATimer_busy H w3 Chip.ciab Chip.ciab H.CIAICRB_TB o4 (by rw [v3]; exact h4)
          generalize hw4 : ({ w3 with
            calls := w3.calls ++ [CiaCall.AddICRVector Chip.ciab H.CIAICRB_TB] } : CiaWorld) = w4 at hA4
          have v4 : w4.vectors = w.vectors := by rw [← hw4]; exact v3
          have c4 : w4.calls = w.calls ++ [CiaCall.AddICRVector Chip.ciaa H.CIAICRB_TA, CiaCall.AddICRVector Chip.ciaa H.CIAICRB_TB, CiaCall.AddICRVector Chip.ciab H.CIAICRB_TA, CiaCall.AddICRVector Chip.ciab H.CIAICRB_TB] := by
            rw [← hw4]; simp [c3]
          have g4 : w4.CIACr = w.CIACr ∧ w4.CIABase = w.CIABase ∧
              w4.StopMask = w.StopMask ∧ w4.StartMask = w.StartMask := by
            rw [← hw4]; exact g3
          have hf : firstFree w (candidates H) = none := by
            simp [firstFree, candidates, h1, h2, h3, h4]
          have hF : FindFreeCIATimer H w true true = (w4, false) := by
            simp [FindFreeCIATimer, hA1, hA2, hA3, hA4]
          rw [hF, hf]
          refine ⟨by simp, ?_, ?_, by simp, fun _ => g4⟩
          · simp [c4, attempted, candidates, h1, h2, h3, h4]
          · intro chip bit
            rw [v4]
            simp

/-- An evaluation of `FindFreeCIATimer`: with CIA-A timer A owned by another program the
second candidate, CIA-A timer B, is acquired after two attempts, and the registers and masks
of timer B are recorded. -/
theorem findFree_second_candidate :
    (FindFreeCIATimer ciaNdk (idleWorld [(Chip.ciaa, 0)]) true true).2 = true ∧
    (FindFreeCIATimer ciaNdk (idleWorld [(Chip.ciaa, 0)]) true true).1.calls =
      [CiaCall.AddICRVector Chip.ciaa 0, CiaCall.AddICRVector Chip.ciaa 1] ∧
    (FindFreeCIATimer ciaNdk (idleWorld [(Chip.ciaa, 0)]) true true).1.vectors Chip.ciaa 1 =
      some Owner.CIAInt ∧
    (FindFreeCIATimer ciaNdk (idleWorld [(Chip.ciaa, 0)]) true true).1.CIACr =
      some (Chip.ciaa, CiaReg.ciacrb) ∧
    (FindFreeCIATimer ciaNdk (idleWorld [(Chip.ciaa, 0)]) true true).1.CIALo =
      some (Chip.ciaa, CiaReg.ciatblo) ∧
    (FindFreeCIATimer ciaNdk (idleWorld [(Chip.ciaa, 0)]) true true).1.CIAHi =
      some (Chip.ciaa, CiaReg.ciatbhi) ∧
    (FindFreeCIATimer ciaNdk (idleWorld [(Chip.ciaa, 0)]) true true).1.StopMask = 0x86 ∧
    (FindFreeCIATimer ciaNdk (idleWorld [(Chip.ciaa, 0)]) true true).1.StartMask = 0x01 := by
  refine ⟨by decide, by decide, by decide, by decide, by decide, by decide, by decide,
    by decide⟩

/-! ## Stopping the CIA timer -/

theorem stopCIATimer_calls (H : CiaHeaders) (checksOwner : Bool) (w : CiaWorld) :
    (StopCIATimer H checksOwner w).calls =
      w.calls ++ (match w.CIABase with
        | some base => [CiaCall.RemICRVector base H.CIAICRB_TA]
        | none => []) := by
  cases hb : w.CIABase <;> cases hc : w.CIACr <;>
    simp [StopCIATimer, RemICRVector, hb, hc]

/-- C17 does not hold on the code: `StopCIATimer` always passes `CIAICRB_TA` to
`RemICRVector`.  With CIA-A timer A owned by another program, `FindFreeCIATimer` installs
the interrupt on CIA-A timer B; `StopCIATimer` then clears the start bit of control
register B but calls `RemICRVector` for timer A, so the interrupt stays installed on
timer B, and a resource that does not compare owners takes the other program's interrupt
off timer A.  Called when no timer was acquired, `StopCIATimer` makes no call and changes
no register and no vector. -/
theorem stop_leaves_timer_B_installed :
    (∀ checksOwner,
      (StopCIATimer ciaNdk checksOwner
        (FindFreeCIATimer ciaNdk (idleWorld [(Chip.ciaa, 0)]) true true).1).calls =
        [CiaCall.AddICRVector Chip.ciaa 0, CiaCall.AddICRVector Chip.ciaa 1,
         CiaCall.RemICRVector Chip.ciaa 0] ∧
      (StopCIATimer ciaNdk checksOwner
        (FindFreeCIATimer ciaNdk (idleWorld [(Chip.ciaa, 0)]) true true).1).vectors
          Chip.ciaa 1 = some Owner.CIAInt ∧
      (StopCIATimer ciaNdk checksOwner
        (FindFreeCIATimer ciaNdk (idleWorld [(Chip.ciaa, 0)]) true true).1).regs
          Chip.ciaa CiaReg.ciacrb = 0x86) ∧
    (StopCIATimer ciaNdk false
      (FindFreeCIATimer ciaNdk (idleWorld [(Chip.ciaa, 0)]) true true).1).vectors
        Chip.ciaa 0 = none ∧
    (StopCIATimer ciaNdk true
      (FindFreeCIATimer ciaNdk (idleWorld [(Chip.ciaa, 0)]) true true).1).vectors
        Chip.ciaa 0 = some Owner.other ∧
    (∀ checksOwner busy,
      (StopCIATimer ciaNdk checksOwner (idleWorld busy)).calls = [] ∧
      (StopCIATimer ciaNdk checksOwner (idleWorld busy)).vectors = (idleWorld busy).vectors ∧
      (StopCIATimer ciaNdk checksOwner (idleWorld busy)).regs = (idleWorld busy).regs) := by
  refine ⟨?_, by decide, by decide, ?_⟩
  · intro checksOwner
    cases checksOwner <;> exact ⟨by decide, by decide, by decide⟩
  · intro checksOwner busy
    exact ⟨rfl, rfl, rfl⟩

end XMouse
